import Mathlib

/-!
Shallow embedding of the cancer-risk reasoning pipeline and the dynamic
consultation questionnaire of this repository
(`src/cancer/cancer_reasoning_engine.py` and
`enhanced_cancer_consultation_system.py`), together with theorems checking the
specification's claims against it.

Numeric values that the Python source holds in `float` variables are modelled
as rationals (`ℚ`); integers are modelled as `Int`/`Nat`.  Python dictionaries
are modelled as insertion-ordered association lists: assignment overwrites an
existing key in place and appends a new key at the end, matching CPython's
dictionary semantics.
-/

namespace LabAid

/-- Enumeration of cancer types (class `CancerType` in the source). -/
inductive CancerType where
  | breast
  | lung
  | colorectal
  | prostate
  | cervical
  | liver
  | stomach
  | skin
  | blood
  | unknown
deriving DecidableEq, Repr

/-- The `.value` string of each `CancerType` enum member. -/
def CancerType.value : CancerType → String
  | .breast => "breast_cancer"
  | .lung => "lung_cancer"
  | .colorectal => "colorectal_cancer"
  | .prostate => "prostate_cancer"
  | .cervical => "cervical_cancer"
  | .liver => "liver_cancer"
  | .stomach => "stomach_cancer"
  | .skin => "skin_cancer"
  | .blood => "blood_cancer"
  | .unknown => "unknown"

/-- Risk assessment levels (class `RiskLevel` in the source). -/
inductive RiskLevel where
  | low
  | moderate
  | high
  | critical
deriving DecidableEq, Repr

/-- The `.value` string of each `RiskLevel` enum member. -/
def RiskLevel.value : RiskLevel → String
  | .low => "low"
  | .moderate => "moderate"
  | .high => "high"
  | .critical => "critical"

/-- Case-insensitive lowering of a string, as Python `str.lower()` does for the
ASCII keywords used by the source (Bengali characters are unaffected). -/
def toLowerChars (s : String) : List Char :=
  s.toList.map Char.toLower

/-- Whether `needle` occurs at the start of `hay` (character lists). -/
def charsHavePrefix : List Char → List Char → Bool
  | [], _ => true
  | _ :: _, [] => false
  | c :: cs, d :: ds => c == d && charsHavePrefix cs ds

/-- Whether `needle` occurs somewhere inside `hay` (character lists), the
semantics of Python's `needle in hay` on strings. -/
def charsHaveSubstr (needle : List Char) : List Char → Bool
  | [] => needle.isEmpty
  | c :: t => charsHavePrefix needle (c :: t) || charsHaveSubstr needle t

/-- Python's `needle.lower() in hay.lower()` substring test on strings. -/
def strContainsLowered (hay needle : String) : Bool :=
  charsHaveSubstr (toLowerChars needle) (toLowerChars hay)

/-- Lookup in an association list modelling a Python dictionary
(`d.get(k)` / `d[k]`). -/
def dictFind {α β : Type} [DecidableEq α] : List (α × β) → α → Option β
  | [], _ => none
  | (k2, v) :: t, k => if k2 = k then some v else dictFind t k

/-- Assignment `d[k] = v` on a Python dictionary: overwrites an existing key in
place, otherwise appends the new key at the end. -/
def dictSet {α β : Type} [DecidableEq α] : List (α × β) → α → β → List (α × β)
  | [], k, v => [(k, v)]
  | (k2, v2) :: t, k, v => if k2 = k then (k, v) :: t else (k2, v2) :: dictSet t k v

/-- Structured representation of cancer symptoms (dataclass `CancerSymptom`). -/
structure CancerSymptom where
  name : String
  severity : Int
  duration : String
  associated_symptoms : List String
  cancer_types : List CancerType
  urgency_score : Int
deriving DecidableEq, Repr

/-- The static symptom database (`CancerKnowledgeBase._initialize_symptoms_db`). -/
def symptomsDb : List (String × CancerSymptom) :=
  [("persistent_cough",
    { name := "Persistent Cough", severity := 0, duration := "",
      associated_symptoms := ["blood_in_sputum", "chest_pain", "shortness_of_breath"],
      cancer_types := [CancerType.lung], urgency_score := 7 }),
   ("breast_lump",
    { name := "Breast Lump", severity := 0, duration := "",
      associated_symptoms := ["nipple_discharge", "breast_pain", "skin_changes"],
      cancer_types := [CancerType.breast], urgency_score := 8 }),
   ("blood_in_stool",
    { name := "Blood in Stool", severity := 0, duration := "",
      associated_symptoms := ["abdominal_pain", "weight_loss", "change_in_bowel_habits"],
      cancer_types := [CancerType.colorectal], urgency_score := 8 }),
   ("unexplained_weight_loss",
    { name := "Unexplained Weight Loss", severity := 0, duration := "",
      associated_symptoms := ["fatigue", "loss_of_appetite", "night_sweats"],
      cancer_types := [CancerType.lung, CancerType.stomach, CancerType.liver, CancerType.blood],
      urgency_score := 6 }),
   ("persistent_fatigue",
    { name := "Persistent Fatigue", severity := 0, duration := "",
      associated_symptoms := ["weakness", "pale_skin", "shortness_of_breath"],
      cancer_types := [CancerType.blood, CancerType.liver], urgency_score := 5 }),
   ("unusual_bleeding",
    { name := "Unusual Bleeding", severity := 0, duration := "",
      associated_symptoms := ["pelvic_pain", "irregular_periods", "post_coital_bleeding"],
      cancer_types := [CancerType.cervical], urgency_score := 7 }),
   ("skin_changes",
    { name := "Skin Changes", severity := 0, duration := "",
      associated_symptoms := ["mole_changes", "new_growths", "non_healing_sores"],
      cancer_types := [CancerType.skin], urgency_score := 6 })]

/-- Keyword table of `CancerReasoningEngine._symptom_mentioned`. -/
def symptomKeywords : List (String × List String) :=
  [("persistent_cough", ["cough", "coughing", "কাশি"]),
   ("breast_lump", ["breast lump", "breast mass", "স্তনে গাঁট"]),
   ("blood_in_stool", ["blood in stool", "bloody stool", "মলে রক্ত"]),
   ("unexplained_weight_loss", ["weight loss", "losing weight", "ওজন কমা"]),
   ("persistent_fatigue", ["fatigue", "tired", "weakness", "ক্লান্তি"]),
   ("unusual_bleeding", ["bleeding", "blood", "রক্তপাত"]),
   ("skin_changes", ["skin changes", "mole", "ত্বকের পরিবর্তন"])]

/-- `CancerReasoningEngine._symptom_mentioned`: case-insensitive keyword
substring test against the free-text description. -/
def symptomMentioned (symptomKey : String) (description : String) : Bool :=
  let keywords := (dictFind symptomKeywords symptomKey).getD []
  keywords.any (fun kw => strContainsLowered description kw)

/-- The `symptoms_data` mapping passed to `analyze_symptoms`; `.get` defaults
are modelled with `Option`. -/
structure SymptomsData where
  description : String
  severity : Option Int
  duration : Option String
deriving DecidableEq, Repr

/-- Per-symptom detail recorded in the `symptom_details` map. -/
structure SymptomDetail where
  severity : Int
  duration : String
  urgency : Int
deriving DecidableEq, Repr

/-- Result dictionary of `analyze_symptoms`. -/
structure SymptomsAnalysis where
  identified_symptoms : List String
  urgency_score : ℚ
  possible_cancer_types : List CancerType
  requires_immediate_attention : Bool
  symptom_details : List (String × SymptomDetail)
deriving DecidableEq, Repr

/-- The in-place update `symptom_obj.severity = ...; symptom_obj.duration = ...`
performed on a matched knowledge-base entry. -/
def updateSymptom (s : CancerSymptom) (input : SymptomsData) : CancerSymptom :=
  { s with severity := input.severity.getD 5, duration := input.duration.getD "unknown" }

/-- The `for symptom_key, symptom_obj in symptoms_db.items()` loop of
`analyze_symptoms`: returns the database after the in-place mutations, the
identified (mutated) symptom objects in iteration order, and the accumulated
total urgency score. -/
def analyzeLoop (input : SymptomsData) :
    List (String × CancerSymptom) → List (String × CancerSymptom) × List CancerSymptom × Int
  | [] => ([], [], 0)
  | (k, s) :: t =>
    let rest := analyzeLoop input t
    if symptomMentioned k input.description then
      let s2 := updateSymptom s input
      ((k, s2) :: rest.1, s2 :: rest.2.1, s2.urgency_score + rest.2.2)
    else
      ((k, s) :: rest.1, rest.2.1, rest.2.2)

/-- `CancerReasoningEngine._get_possible_cancer_types`: the union of the cancer
types of the identified symptoms.  The source materialises a Python `set`,
whose iteration order is unspecified; first-occurrence order is used here. -/
def getPossibleCancerTypes (symptoms : List CancerSymptom) : List CancerType :=
  symptoms.foldl
    (fun acc s => s.cancer_types.foldl (fun a ct => if ct ∈ a then a else a ++ [ct]) acc) []

/-- `CancerReasoningEngine.analyze_symptoms`, with the mutation of the shared
`symptoms_db` made explicit: returns the updated database and the analysis
result.  The reasoning-trace append carries no data read back by any stage. -/
def analyzeSymptoms (db : List (String × CancerSymptom)) (input : SymptomsData) :
    List (String × CancerSymptom) × SymptomsAnalysis :=
  let r := analyzeLoop input db
  let identified := r.2.1
  let totalUrgency := r.2.2
  let avgUrgency : ℚ := if identified.isEmpty then 0 else (totalUrgency : ℚ) / identified.length
  (r.1,
   { identified_symptoms := identified.map (fun s => s.name)
     urgency_score := avgUrgency
     possible_cancer_types := getPossibleCancerTypes identified
     requires_immediate_attention := decide (avgUrgency ≥ 7)
     symptom_details := identified.map (fun s => (s.name, ⟨s.severity, s.duration, s.urgency_score⟩)) })

structure RiskFactor where
  factor : String
  weight : ℚ
  applicable_cancers : List CancerType
deriving DecidableEq, Repr

/-- The static risk-factor database
(`CancerKnowledgeBase._initialize_risk_factors_db`). -/
def riskFactorsDb : List (String × RiskFactor) :=
  [("smoking",
    { factor := "Smoking", weight := 0.9,
      applicable_cancers := [CancerType.lung, CancerType.cervical, CancerType.colorectal] }),
   ("family_history",
    { factor := "Family History", weight := 0.7,
      applicable_cancers := [CancerType.breast, CancerType.colorectal, CancerType.prostate] }),
   ("age_over_50",
    { factor := "Age over 50", weight := 0.6,
      applicable_cancers := [CancerType.breast, CancerType.colorectal, CancerType.prostate] }),
   ("alcohol_consumption",
    { factor := "Heavy Alcohol Consumption", weight := 0.5,
      applicable_cancers := [CancerType.liver, CancerType.breast, CancerType.colorectal] }),
   ("hpv_infection",
    { factor := "HPV Infection", weight := 0.8,
      applicable_cancers := [CancerType.cervical] }),
   ("sun_exposure",
    { factor := "Excessive Sun Exposure", weight := 0.7,
      applicable_cancers := [CancerType.skin] })]

/-- Screening-guideline entry
(`CancerKnowledgeBase._initialize_screening_guidelines`); optional dictionary
keys are modelled with `Option`. -/
structure ScreeningGuideline where
  age_start : Int
  frequency : String
  method : String
  high_risk_start : Option Int
  high_risk_frequency : Option String
  alternative : Option String
deriving DecidableEq, Repr

/-- The static screening-guideline table. -/
def screeningGuidelines : List (CancerType × ScreeningGuideline) :=
  [(CancerType.breast,
    { age_start := 40, frequency := "annually", method := "mammography",
      high_risk_start := some 30, high_risk_frequency := none, alternative := none }),
   (CancerType.cervical,
    { age_start := 21, frequency := "every 3 years", method := "pap smear",
      high_risk_start := none, high_risk_frequency := some "annually", alternative := none }),
   (CancerType.colorectal,
    { age_start := 45, frequency := "every 10 years", method := "colonoscopy",
      high_risk_start := none, high_risk_frequency := none, alternative := some "FIT test annually" }),
   (CancerType.prostate,
    { age_start := 50, frequency := "annually", method := "PSA test",
      high_risk_start := some 45, high_risk_frequency := none, alternative := none })]

/-- The normalized `patient_data` mapping consumed by `assess_risk_factors`
(produced by `_process_responses_for_analysis` in the consultation system). -/
structure PatientData where
  age : Int
  smoking : Bool
  heavy_drinking : Bool
  family_history_cancer : Bool
  hpv_positive : Bool
  excessive_sun_exposure : Bool
deriving DecidableEq, Repr

/-- `CancerReasoningEngine._risk_factor_present`. -/
def riskFactorPresent (riskKey : String) (p : PatientData) : Bool :=
  if riskKey = "smoking" then p.smoking
  else if riskKey = "family_history" then p.family_history_cancer
  else if riskKey = "age_over_50" then decide (p.age > 50)
  else if riskKey = "alcohol_consumption" then p.heavy_drinking
  else if riskKey = "hpv_infection" then p.hpv_positive
  else if riskKey = "sun_exposure" then p.excessive_sun_exposure
  else false

/-- `CancerReasoningEngine._categorize_risk_level`. -/
def categorizeRiskLevel (riskScore : ℚ) : RiskLevel :=
  if riskScore ≥ 0.8 then RiskLevel.critical
  else if riskScore ≥ 0.6 then RiskLevel.high
  else if riskScore ≥ 0.3 then RiskLevel.moderate
  else RiskLevel.low

/-- The applicable risk factors accumulated by the first loop of
`assess_risk_factors`, in database iteration order. -/
def applicableRisks (p : PatientData) : List RiskFactor :=
  (riskFactorsDb.filter (fun e => riskFactorPresent e.1 p)).map (fun e => e.2)

/-- One entry of the `cancer_specific_risks` result dictionary; the source
stores the risk level as its `.value` string. -/
structure CancerRiskEntry where
  risk_score : ℚ
  risk_level : String
  contributing_factors : List String
deriving DecidableEq, Repr

/-- Iteration order of `for cancer_type in CancerType` (minus `UNKNOWN`, which
the loop skips). -/
def cancerTypeIterationOrder : List CancerType :=
  [CancerType.breast, CancerType.lung, CancerType.colorectal, CancerType.prostate,
   CancerType.cervical, CancerType.liver, CancerType.stomach, CancerType.skin, CancerType.blood]

/-- The per-cancer loop of `assess_risk_factors`: for each cancer type in
iteration order, sums the weights of the applicable risk factors listing that
type, clamps to 1.0, and emits an entry only when the clamped score is
strictly positive. -/
def cancerRisksLoop (p : PatientData) : List CancerType → List (CancerType × CancerRiskEntry)
  | [] => []
  | ct :: rest =>
    let relevant := (applicableRisks p).filter (fun r => ct ∈ r.applicable_cancers)
    let normalizedRisk : ℚ := min ((relevant.map (fun r => r.weight)).sum) 1.0
    if normalizedRisk > 0 then
      (ct,
        { risk_score := normalizedRisk
          risk_level := (categorizeRiskLevel normalizedRisk).value
          contributing_factors := relevant.map (fun r => r.factor) }) :: cancerRisksLoop p rest
    else
      cancerRisksLoop p rest

/-- The `cancer_specific_risks` dictionary built by `assess_risk_factors`. -/
def cancerSpecificRisks (p : PatientData) : List (CancerType × CancerRiskEntry) :=
  cancerRisksLoop p cancerTypeIterationOrder

/-- Display name of a cancer type as produced by
`cancer_type.value.replace("_", " ").title()` in the source. -/
def cancerDisplayName : CancerType → String
  | .breast => "Breast Cancer"
  | .lung => "Lung Cancer"
  | .colorectal => "Colorectal Cancer"
  | .prostate => "Prostate Cancer"
  | .cervical => "Cervical Cancer"
  | .liver => "Liver Cancer"
  | .stomach => "Stomach Cancer"
  | .skin => "Skin Cancer"
  | .blood => "Blood Cancer"
  | .unknown => "Unknown"

/-- The recommendation string appended for one cancer type by
`_get_screening_recommendations`. -/
def screeningString (ct : CancerType) (g : ScreeningGuideline) : String :=
  cancerDisplayName ct ++ ": " ++ g.method ++ " " ++ g.frequency

/-- The start age actually applied by `_get_screening_recommendations`:
`guidelines.get("high_risk_start" if risk_level == "high" else "age_start",
guidelines["age_start"])`. -/
def appliedStartAge (g : ScreeningGuideline) (riskLevel : String) : Int :=
  if riskLevel = "high" then g.high_risk_start.getD g.age_start else g.age_start

/-- `CancerReasoningEngine._get_screening_recommendations`. -/
def getScreeningRecommendations (riskAssessment : List (CancerType × CancerRiskEntry)) (age : Int) :
    List String :=
  match riskAssessment with
  | [] => []
  | (ct, e) :: t =>
    match dictFind screeningGuidelines ct with
    | none => getScreeningRecommendations t age
    | some g =>
      if age ≥ appliedStartAge g e.risk_level then
        screeningString ct g :: getScreeningRecommendations t age
      else
        getScreeningRecommendations t age

/-- Result dictionary of `assess_risk_factors`.  `high_risk_cancers` holds the
cancer types whose risk level is high or critical (the source stores their
`.value` strings). -/
structure RiskAssessment where
  overall_risk_score : ℚ
  cancer_specific_risks : List (CancerType × CancerRiskEntry)
  high_risk_cancers : List CancerType
  recommended_screenings : List String
deriving DecidableEq, Repr

/-- `CancerReasoningEngine.assess_risk_factors`. -/
def assessRiskFactors (p : PatientData) : RiskAssessment :=
  let totalRiskScore : ℚ := ((applicableRisks p).map (fun r => r.weight)).sum
  let risks := cancerSpecificRisks p
  { overall_risk_score := min totalRiskScore 1.0
    cancer_specific_risks := risks
    high_risk_cancers :=
      (risks.filter (fun e => e.2.risk_level = "high" ∨ e.2.risk_level = "critical")).map
        (fun e => e.1)
    recommended_screenings := getScreeningRecommendations risks p.age }

/-- First phase of `generate_differential_diagnosis`: each symptom-implicated
cancer type receives probability 0.6 (dictionary assignment, so duplicates
collapse). -/
def symptomProbBase (symptomCancers : List CancerType) : List (CancerType × ℚ) :=
  symptomCancers.foldl (fun d ct => dictSet d ct 0.6) []

/-- Second phase of `generate_differential_diagnosis`: each risk-assessed
cancer type adds `risk_score * 0.4` on top of any existing entry
(`cancer_probabilities.get(cancer, 0.0) + risk_contribution`). -/
def applyRiskContributions (d : List (CancerType × ℚ)) :
    List (CancerType × CancerRiskEntry) → List (CancerType × ℚ)
  | [] => d
  | (ct, e) :: t =>
    applyRiskContributions (dictSet d ct ((dictFind d ct).getD 0 + e.risk_score * 0.4)) t

/-- The combined `cancer_probabilities` dictionary of
`generate_differential_diagnosis`. -/
def cancerProbabilities (sa : SymptomsAnalysis) (ra : RiskAssessment) : List (CancerType × ℚ) :=
  applyRiskContributions (symptomProbBase sa.possible_cancer_types) ra.cancer_specific_risks

/-- Stable insertion of one entry into a list sorted by descending
probability; an element is placed before the first strictly smaller entry,
matching the stability of Python `sorted(..., reverse=True)`. -/
def insertDesc (x : CancerType × ℚ) : List (CancerType × ℚ) → List (CancerType × ℚ)
  | [] => [x]
  | y :: ys => if x.2 ≥ y.2 then x :: y :: ys else y :: insertDesc x ys

/-- Stable sort by descending probability
(`sorted(cancer_probabilities.items(), key=lambda x: x[1], reverse=True)`). -/
def sortDescProb : List (CancerType × ℚ) → List (CancerType × ℚ)
  | [] => []
  | x :: xs => insertDesc x (sortDescProb xs)

/-- Confidence label assigned per differential-diagnosis entry. -/
def confidenceLabel (probability : ℚ) : String :=
  if probability > 0.7 then "High" else if probability > 0.4 then "Moderate" else "Low"

/-- `CancerReasoningEngine._get_supporting_evidence`. -/
def getSupportingEvidence (ct : CancerType) (sa : SymptomsAnalysis) (ra : RiskAssessment) :
    List String :=
  (if ct ∈ sa.possible_cancer_types then ["Symptom pattern consistent with this cancer type"]
   else []) ++
  (match dictFind ra.cancer_specific_risks ct with
   | some e => e.contributing_factors.map (fun f => "Risk factor: " ++ f)
   | none => [])

/-- One entry of the `differential_diagnoses` list. -/
structure DiffEntry where
  rank : Nat
  cancer_type : CancerType
  probability : ℚ
  confidence : String
  supporting_evidence : List String
deriving DecidableEq, Repr

/-- The `for i, (cancer, probability) in enumerate(sorted_diagnoses[:5])` loop:
builds the detailed entries with 1-based ranks. -/
def mkDiffEntries (sa : SymptomsAnalysis) (ra : RiskAssessment) (i : Nat) :
    List (CancerType × ℚ) → List DiffEntry
  | [] => []
  | (ct, p) :: t =>
    { rank := i + 1, cancer_type := ct, probability := p,
      confidence := confidenceLabel p,
      supporting_evidence := getSupportingEvidence ct sa ra } :: mkDiffEntries sa ra (i + 1) t

/-- `CancerReasoningEngine._get_specific_diagnostic_tests` (the `.get` default
covers `unknown`). -/
def specificDiagnosticTests : CancerType → List String
  | .breast => ["Mammography", "Breast MRI", "Biopsy", "Ultrasound"]
  | .lung => ["Chest CT scan", "PET scan", "Bronchoscopy", "Sputum cytology"]
  | .colorectal => ["Colonoscopy", "CEA blood test", "CT scan", "FIT test"]
  | .prostate => ["PSA blood test", "Digital rectal exam", "Prostate MRI", "Biopsy"]
  | .cervical => ["Pap smear", "HPV test", "Colposcopy", "Cervical biopsy"]
  | .liver => ["Liver ultrasound", "CT scan", "MRI", "Alpha-fetoprotein test"]
  | .stomach => ["Upper endoscopy", "CT scan", "Barium swallow", "H. pylori test"]
  | .skin => ["Dermoscopy", "Skin biopsy", "Full body skin exam"]
  | .blood => ["Complete blood count", "Bone marrow biopsy", "Flow cytometry", "Genetic tests"]
  | .unknown => ["General blood tests", "Imaging studies"]

/-- `CancerReasoningEngine._recommend_diagnostic_tests`: union of the tests of
the top 3 diagnoses.  The source materialises a Python `set`, whose iteration
order is unspecified; first-occurrence order is used here. -/
def recommendDiagnosticTests (entries : List DiffEntry) : List String :=
  (entries.take 3).foldl
    (fun acc e =>
      (specificDiagnosticTests e.cancer_type).foldl
        (fun a t => if t ∈ a then a else a ++ [t]) acc) []

/-- Result dictionary of `generate_differential_diagnosis`. -/
structure DiagnosisResult where
  differential_diagnoses : List DiffEntry
  most_likely_diagnosis : Option (CancerType × ℚ)
  requires_immediate_evaluation : Bool
  recommended_tests : List String
deriving DecidableEq, Repr

/-- `CancerReasoningEngine.generate_differential_diagnosis`. -/
def generateDifferentialDiagnosis (sa : SymptomsAnalysis) (ra : RiskAssessment) :
    DiagnosisResult :=
  let sortedDiagnoses := sortDescProb (cancerProbabilities sa ra)
  let entries := mkDiffEntries sa ra 0 (sortedDiagnoses.take 5)
  { differential_diagnoses := entries
    most_likely_diagnosis := sortedDiagnoses.head?
    requires_immediate_evaluation := sortedDiagnoses.any (fun e => decide (e.2 > 0.8))
    recommended_tests := recommendDiagnosticTests entries }

/-- The black-box text-completion collaborator
(`self.client.chat.completions.create`); the prompt assembly of
`generate_llm_enhanced_response` is absorbed into the argument passed to it,
and a raised exception is modelled as `Except.error`. -/
abbrev Completion : Type :=
  String → Except String String

/-- The fixed string returned by the `except` branch of
`generate_llm_enhanced_response`. -/
def llmErrorFallback (language : String) : String :=
  if language = "bn" then
    "দুঃখিত, বিশ্লেষণ তৈরি করতে একটি ত্রুটি হয়েছে। অনুগ্রহ করে আবার চেষ্টা করুন।"
  else
    "Sorry, there was an error generating the analysis. Please try again."

/-- `CancerReasoningEngine.generate_llm_enhanced_response`: calls the
collaborator on the serialized analysis results and recovers from any error by
returning the fixed language-dependent fallback string. -/
def generateLlmEnhancedResponse (language : String) (client : Completion)
    (analysisResults : String) : String :=
  match client analysisResults with
  | Except.ok response => response
  | Except.error _ => llmErrorFallback language

/-- A questionnaire step (class `QuestionnaireStep`), with the `"en"`/`"bn"`
locale dictionaries flattened into paired fields. -/
structure QuestionnaireStep where
  question_id : String
  question_text_en : String
  question_text_bn : String
  question_type : String
  options_en : List String
  options_bn : List String
  conditions : List (String × List String)
deriving DecidableEq, Repr

/-- The full question catalog
(`CancerConsultationQuestionnaire._initialize_questionnaire`). -/
def questionnaireCatalog : List QuestionnaireStep :=
  [{ question_id := "age_group",
     question_text_en := "What is your age group?",
     question_text_bn := "আপনার বয়স কত?",
     question_type := "multiple_choice",
     options_en := ["Under 30", "30-40", "41-50", "51-60", "Over 60"],
     options_bn := ["৩০ এর নিচে", "৩০-৪০", "৪১-৫০", "৫১-৬০", "৬০ এর উপরে"],
     conditions := [] },
   { question_id := "gender",
     question_text_en := "What is your gender?",
     question_text_bn := "আপনার লিঙ্গ কী?",
     question_type := "multiple_choice",
     options_en := ["Male", "Female", "Other"],
     options_bn := ["পুরুষ", "মহিলা", "অন্যান্য"],
     conditions := [] },
   { question_id := "main_concern",
     question_text_en := "What is your main health concern today?",
     question_text_bn := "আজ আপনার প্রধান স্বাস্থ্য সমস্যা কী?",
     question_type := "text",
     options_en := [], options_bn := [], conditions := [] },
   { question_id := "cancer_diagnosis",
     question_text_en := "Have you ever been diagnosed with cancer?",
     question_text_bn := "আপনার কি কখনো ক্যান্সার ধরা পড়েছে?",
     question_type := "multiple_choice",
     options_en := ["No", "Yes - currently in treatment", "Yes - treatment completed",
                    "Yes - under monitoring"],
     options_bn := ["না", "হ্যাঁ - বর্তমানে চিকিৎসা চলছে", "হ্যাঁ - চিকিৎসা সম্পন্ন",
                    "হ্যাঁ - পর্যবেক্ষণে আছি"],
     conditions := [] },
   { question_id := "chronic_diseases",
     question_text_en := "Do you have any of these chronic diseases?",
     question_text_bn := "আপনার কি এই দীর্ঘমেয়াদী রোগগুলির কোনটি আছে?",
     question_type := "multiple_choice",
     options_en := ["None", "Diabetes", "Hypertension", "Heart disease", "Multiple conditions"],
     options_bn := ["কিছু নেই", "ডায়াবেটিস", "উচ্চ রক্তচাপ", "হৃদরোগ", "একাধিক রোগ"],
     conditions := [] },
   { question_id := "hepatitis_status",
     question_text_en := "Have you been tested for Hepatitis B or C?",
     question_text_bn := "আপনার কি হেপাটাইটিস বি বা সি পরীক্ষা করানো হয়েছে?",
     question_type := "multiple_choice",
     options_en := ["Never tested", "Tested - Negative", "Tested - Positive for Hep B",
                    "Tested - Positive for Hep C", "Tested - Positive for both"],
     options_bn := ["কখনো পরীক্ষা করাইনি", "পরীক্ষা করেছি - নেগেটিভ", "পরীক্ষা করেছি - হেপ বি পজিটিভ",
                    "পরীক্ষা করেছি - হেপ সি পজিটিভ", "পরীক্ষা করেছি - দুটোই পজিটিভ"],
     conditions := [] },
   { question_id := "persistent_cough",
     question_text_en := "Do you have a persistent cough that has lasted more than 3 weeks?",
     question_text_bn := "আপনার কি ৩ সপ্তাহের বেশি সময় ধরে ক্রমাগত কাশি আছে?",
     question_type := "yes_no",
     options_en := [], options_bn := [], conditions := [] },
   { question_id := "blood_in_sputum",
     question_text_en := "Have you noticed blood in your sputum (coughed up phlegm)?",
     question_text_bn := "আপনি কি আপনার কফে রক্ত দেখেছেন?",
     question_type := "yes_no",
     options_en := [], options_bn := [], conditions := [] },
   { question_id := "unexplained_weight_loss",
     question_text_en := "Have you lost more than 5 kg (11 lbs) in the past 6 months without trying?",
     question_text_bn := "গত ৬ মাসে আপনার কি চেষ্টা ছাড়াই ৫ কেজির বেশি ওজন কমেছে?",
     question_type := "yes_no",
     options_en := [], options_bn := [], conditions := [] },
   { question_id := "unusual_lumps",
     question_text_en := "Have you found any unusual lumps or masses anywhere on your body?",
     question_text_bn := "আপনি কি আপনার শরীরের কোথাও অস্বাভাবিক গাঁট বা পিণ্ড পেয়েছেন?",
     question_type := "yes_no",
     options_en := [], options_bn := [], conditions := [] },
   { question_id := "persistent_fatigue",
     question_text_en := "Do you feel extremely tired or weak most of the time?",
     question_text_bn := "আপনি কি বেশিরভাগ সময় অত্যধিক ক্লান্ত বা দুর্বল বোধ করেন?",
     question_type := "yes_no",
     options_en := [], options_bn := [], conditions := [] },
   { question_id := "skin_changes",
     question_text_en := "Have you noticed any changes in moles or new spots on your skin?",
     question_text_bn := "আপনি কি আপনার তিলে কোন পরিবর্তন বা ত্বকে নতুন দাগ লক্ষ্য করেছেন?",
     question_type := "yes_no",
     options_en := [], options_bn := [], conditions := [] },
   { question_id := "persistent_pain",
     question_text_en := "Do you have persistent pain that doesn\x27t go away and gets worse?",
     question_text_bn := "আপনার কি এমন ব্যথা আছে যা যায় না এবং খারাপ হচ্ছে?",
     question_type := "yes_no",
     options_en := [], options_bn := [], conditions := [] },
   { question_id := "bowel_changes",
     question_text_en := "Have you noticed persistent changes in your bowel habits?",
     question_text_bn := "আপনি কি আপনার মলত্যাগের অভ্যাসে স্থায়ী পরিবর্তন লক্ষ্য করেছেন?",
     question_type := "yes_no",
     options_en := [], options_bn := [], conditions := [] },
   { question_id := "swallowing_difficulties",
     question_text_en := "Do you have indigestion, difficulties in swallowing, or persistent abdominal pain?",
     question_text_bn := "আপনার কি বদহজম, গিলতে অসুবিধা, বা ক্রমাগত পেটে ব্যথা আছে?",
     question_type := "multiple_choice",
     options_en := ["None", "Indigestion", "Difficulty swallowing", "Abdominal pain",
                    "Multiple symptoms"],
     options_bn := ["কিছু নেই", "বদহজম", "গিলতে অসুবিধা", "পেটে ব্যথা", "একাধিক লক্ষণ"],
     conditions := [] },
   { question_id := "breast_changes",
     question_text_en := "Have you noticed any changes in your breast(s) - lumps, dimpling, or nipple discharge?",
     question_text_bn := "আপনি কি আপনার স্তনে কোন পরিবর্তন লক্ষ্য করেছেন - গাঁট, চামড়া কুঁচকে যাওয়া, বা বোঁটা থেকে স্রাব?",
     question_type := "yes_no",
     options_en := [], options_bn := [],
     conditions := [("gender", ["Female", "মহিলা"])] },
   { question_id := "unusual_bleeding",
     question_text_en := "Have you experienced any unusual vaginal bleeding or discharge?",
     question_text_bn := "আপনার কি কোন অস্বাভাবিক যোনি রক্তপাত বা স্রাব হয়েছে?",
     question_type := "yes_no",
     options_en := [], options_bn := [],
     conditions := [("gender", ["Female", "মহিলা"])] },
   { question_id := "pap_smear_test",
     question_text_en := "When was your last Pap smear test?",
     question_text_bn := "আপনার সর্বশেষ প্যাপ স্মিয়ার পরীক্ষা কবে হয়েছিল?",
     question_type := "multiple_choice",
     options_en := ["Never had one", "Within last year", "1-3 years ago", "3-5 years ago",
                    "More than 5 years ago"],
     options_bn := ["কখনো করাইনি", "গত এক বছরের মধ্যে", "১-৩ বছর আগে", "৩-৫ বছর আগে",
                    "৫ বছরের বেশি আগে"],
     conditions := [("gender", ["Female", "মহিলা"]),
                    ("age_group", ["30-40", "41-50", "51-60", "Over 60", "৩০-৪০", "৪১-৫০",
                                   "৫১-৬০", "৬০ এর উপরে"])] },
   { question_id := "mammogram_test",
     question_text_en := "When was your last mammogram?",
     question_text_bn := "আপনার সর্বশেষ ম্যামোগ্রাম কবে হয়েছিল?",
     question_type := "multiple_choice",
     options_en := ["Never had one", "Within last year", "1-2 years ago", "2-3 years ago",
                    "More than 3 years ago"],
     options_bn := ["কখনো করাইনি", "গত এক বছরের মধ্যে", "১-২ বছর আগে", "২-৩ বছর আগে",
                    "৩ বছরের বেশি আগে"],
     conditions := [("gender", ["Female", "মহিলা"]),
                    ("age_group", ["41-50", "51-60", "Over 60", "৪১-৫০", "৫১-৬০", "৬০ এর উপরে"])] },
   { question_id := "hpv_status",
     question_text_en := "Have you been tested for HPV (Human Papillomavirus)?",
     question_text_bn := "আপনার কি HPV (হিউম্যান প্যাপিলোমাভাইরাস) পরীক্ষা করানো হয়েছে?",
     question_type := "multiple_choice",
     options_en := ["Never tested", "Tested - Negative", "Tested - Positive",
                    "Don\x27t know results"],
     options_bn := ["কখনো পরীক্ষা করাইনি", "পরীক্ষা করেছি - নেগেটিভ", "পরীক্ষা করেছি - পজিটিভ",
                    "ফলাফল জানি না"],
     conditions := [("gender", ["Female", "মহিলা"])] },
   { question_id := "prostate_symptoms",
     question_text_en := "Do you have any urinary problems or prostate-related symptoms?",
     question_text_bn := "আপনার কি প্রস্রাবের সমস্যা বা প্রোস্টেট সংক্রান্ত লক্ষণ আছে?",
     question_type := "multiple_choice",
     options_en := ["No symptoms", "Frequent urination", "Difficulty urinating", "Blood in urine",
                    "Multiple symptoms"],
     options_bn := ["কোন লক্ষণ নেই", "ঘন ঘন প্রস্রাব", "প্রস্রাবে অসুবিধা", "প্রস্রাবে রক্ত",
                    "একাধিক লক্ষণ"],
     conditions := [("gender", ["Male", "পুরুষ"]),
                    ("age_group", ["41-50", "51-60", "Over 60", "৪১-৫০", "৫১-৬০", "৬০ এর উপরে"])] },
   { question_id := "prostate_screening",
     question_text_en := "When was your last prostate screening (PSA test or digital rectal exam)?",
     question_text_bn := "আপনার সর্বশেষ প্রোস্টেট স্ক্রিনিং (PSA পরীক্ষা বা ডিজিটাল রেক্টাল পরীক্ষা) কবে হয়েছিল?",
     question_type := "multiple_choice",
     options_en := ["Never had one", "Within last year", "1-2 years ago", "2-3 years ago",
                    "More than 3 years ago"],
     options_bn := ["কখনো করাইনি", "গত এক বছরের মধ্যে", "১-২ বছর আগে", "২-৩ বছর আগে",
                    "৩ বছরের বেশি আগে"],
     conditions := [("gender", ["Male", "পুরুষ"]),
                    ("age_group", ["51-60", "Over 60", "৫১-৬০", "৬০ এর উপরে"])] },
   { question_id := "testicular_lumps",
     question_text_en := "Have you noticed any lumps, swelling, or changes in your testicles?",
     question_text_bn := "আপনি কি আপনার অণ্ডকোষে কোন গাঁট, ফোলা বা পরিবর্তন লক্ষ্য করেছেন?",
     question_type := "yes_no",
     options_en := [], options_bn := [],
     conditions := [("gender", ["Male", "পুরুষ"])] },
   { question_id := "colonoscopy_test",
     question_text_en := "Have you had a colonoscopy or stool test for colorectal cancer screening?",
     question_text_bn := "আপনার কি কোলোরেক্টাল ক্যান্সার স্ক্রিনিংয়ের জন্য কোলনোস্কোপি বা মল পরীক্ষা করানো হয়েছে?",
     question_type := "multiple_choice",
     options_en := ["Never had screening", "Colonoscopy within 10 years", "Stool test within 1 year",
                    "Both tests done", "Screening overdue"],
     options_bn := ["কখনো স্ক্রিনিং করাইনি", "১০ বছরের মধ্যে কোলনোস্কোপি", "১ বছরের মধ্যে মল পরীক্ষা",
                    "দুটো পরীক্ষাই করেছি", "স্ক্রিনিং সময় পার হয়েছে"],
     conditions := [("age_group", ["41-50", "51-60", "Over 60", "৪১-৫০", "৫১-৬০", "৬০ এর উপরে"])] },
   { question_id := "smoking_status",
     question_text_en := "What is your smoking history?",
     question_text_bn := "আপনার ধূমপানের ইতিহাস কী?",
     question_type := "multiple_choice",
     options_en := ["Never smoked", "Former smoker (quit >5 years)", "Former smoker (quit <5 years)",
                    "Current light smoker", "Current heavy smoker"],
     options_bn := ["কখনো ধূমপান করিনি", "আগে করতাম (৫+ বছর ছেড়েছি)", "আগে করতাম (<৫ বছর ছেড়েছি)",
                    "এখন হালকা ধূমপান করি", "এখন ভারী ধূমপান করি"],
     conditions := [] },
   { question_id := "alcohol_consumption",
     question_text_en := "How often do you consume alcohol?",
     question_text_bn := "আপনি কত ঘন ঘন মদ্যপান করেন?",
     question_type := "multiple_choice",
     options_en := ["Never", "Occasionally (1-2 drinks/week)", "Regularly (3-7 drinks/week)",
                    "Heavily (>7 drinks/week)", "Daily consumption"],
     options_bn := ["কখনো না", "মাঝে মাঝে (সপ্তাহে ১-২ ড্রিংক)", "নিয়মিত (সপ্তাহে ৩-৭ ড্রিংক)",
                    "বেশি (সপ্তাহে ৭+ ড্রিংক)", "প্রতিদিন"],
     conditions := [] },
   { question_id := "family_history",
     question_text_en := "Has anyone in your immediate family (parents, siblings, children) had cancer?",
     question_text_bn := "আপনার নিকট পরিবারে (বাবা-মা, ভাইবোন, সন্তান) কি কেউ ক্যান্সারে আক্রান্ত হয়েছেন?",
     question_type := "multiple_choice",
     options_en := ["No family history", "One family member", "Multiple family members",
                    "Multiple generations affected"],
     options_bn := ["কোন পারিবারিক ইতিহাস নেই", "একজন পরিবারের সদস্য", "একাধিক পরিবারের সদস্য",
                    "একাধিক প্রজন্ম আক্রান্ত"],
     conditions := [] },
   { question_id := "sun_exposure",
     question_text_en := "How much time do you spend in the sun without protection?",
     question_text_bn := "আপনি কত সময় সুরক্ষা ছাড়াই রোদে থাকেন?",
     question_type := "multiple_choice",
     options_en := ["Minimal exposure", "Moderate with protection", "Frequent exposure",
                    "Excessive unprotected exposure"],
     options_bn := ["খুব কম", "মাঝারি (সুরক্ষা সহ)", "ঘন ঘন", "অতিরিক্ত (সুরক্ষা ছাড়া)"],
     conditions := [] },
   { question_id := "occupational_exposure",
     question_text_en := "Have you been exposed to chemicals, radiation, or asbestos at work?",
     question_text_bn := "আপনি কি কর্মক্ষেত্রে রাসায়নিক, বিকিরণ বা অ্যাসবেস্টসের সংস্পর্শে এসেছেন?",
     question_type := "multiple_choice",
     options_en := ["No occupational exposure", "Chemical exposure", "Radiation exposure",
                    "Asbestos exposure", "Multiple exposures"],
     options_bn := ["কোন পেশাগত এক্সপোজার নেই", "রাসায়নিক এক্সপোজার", "বিকিরণ এক্সপোজার",
                    "অ্যাসবেস্টস এক্সপোজার", "একাধিক এক্সপোজার"],
     conditions := [] },
   { question_id := "diet_quality",
     question_text_en := "How would you rate your diet quality?",
     question_text_bn := "আপনি আপনার খাদ্যের মান কীভাবে মূল্যায়ন করবেন?",
     question_type := "multiple_choice",
     options_en := ["Very healthy (lots of fruits/vegetables)", "Moderately healthy", "Average",
                    "Poor (processed foods)", "Very poor"],
     options_bn := ["খুব স্বাস্থ্যকর (প্রচুর ফল/সবজি)", "মধ্যম স্বাস্থ্যকর", "গড়", "খারাপ (প্রক্রিয়াজাত খাবার)",
                    "খুব খারাপ"],
     conditions := [] },
   { question_id := "exercise_frequency",
     question_text_en := "How often do you exercise?",
     question_text_bn := "আপনি কত ঘন ঘন ব্যায়াম করেন?",
     question_type := "multiple_choice",
     options_en := ["Daily vigorous exercise", "3-4 times per week", "1-2 times per week",
                    "Rarely", "Never"],
     options_bn := ["প্রতিদিন জোরালো ব্যায়াম", "সপ্তাহে ৩-৪ বার", "সপ্তাহে ১-২ বার", "কদাচিৎ", "কখনো না"],
     conditions := [] }]

/-- One stored response record
(`self.responses[question_id] = {"question": ..., "response": ..., ...}`); the
wall-clock timestamp carries no behavior and is omitted. -/
structure StoredResponse where
  question : String
  response : String
  question_type : String
deriving DecidableEq, Repr

/-- The accumulated `self.responses` dictionary of a session. -/
abbrev Responses : Type :=
  List (String × StoredResponse)

/-- `responses.get(question_id, {}).get("response", "")`. -/
def responseOf (responses : Responses) (questionId : String) : String :=
  ((dictFind responses questionId).map (fun r => r.response)).getD ""

/-- One key check of `_should_show_question`: when a condition on `key` is
present, the corresponding already-given response must be among its allowed
values (an unanswered field fails the check, since Python `None` is never in
the allowed list). -/
def conditionOk (responses : Responses) (key : String)
    (conditions : List (String × List String)) : Bool :=
  match dictFind conditions key with
  | none => true
  | some allowed =>
    match dictFind responses key with
    | none => false
    | some r => allowed.contains r.response

/-- `CancerConsultationQuestionnaire._should_show_question`: an unconditioned
question is always shown; otherwise the `gender` and `age_group` checks must
both pass. -/
def shouldShowQuestion (q : QuestionnaireStep) (responses : Responses) : Bool :=
  if q.conditions.isEmpty then
    true
  else
    conditionOk responses "gender" q.conditions && conditionOk responses "age_group" q.conditions

/-- `CancerConsultationQuestionnaire.get_applicable_questions`. -/
def getApplicableQuestions (responses : Responses) : List QuestionnaireStep :=
  questionnaireCatalog.filter (fun q => shouldShowQuestion q responses)

/-- The session state of `EnhancedCancerConsultationSession` (language `"en"`;
the cached `applicable_questions` field is recomputed before every use in the
source and therefore carries no independent state). -/
structure Session where
  responses : Responses
  current_question_index : Nat
  consultation_complete : Bool
deriving DecidableEq, Repr

/-- The slice of the dictionary returned by `process_response` that the
session state machine observes: the `"type"` field and the
`"consultation_complete"` flag.  The analysis payload attached on completion
is computed by the downstream reasoning stages modelled separately. -/
structure StepResult where
  rtype : String
  consultation_complete : Bool
deriving DecidableEq, Repr

/-- `EnhancedCancerConsultationSession._complete_consultation`, restricted to
its effect on the session state machine: sets the terminal flag and reports
completion. -/
def completeConsultation (s : Session) : Session × StepResult :=
  ({ s with consultation_complete := true }, ⟨"consultation_complete", true⟩)

/-- `EnhancedCancerConsultationSession.process_response`: recomputes the
applicable list; if the cursor is already past it, completes; otherwise stores
the submitted value for the active question verbatim, advances the cursor,
recomputes the applicable list again and completes if the new cursor exceeds
it. -/
def processResponse (s : Session) (v : String) : Session × StepResult :=
  let apps := getApplicableQuestions s.responses
  if h : s.current_question_index < apps.length then
    let q := apps.get ⟨s.current_question_index, h⟩
    let responses2 := dictSet s.responses q.question_id ⟨q.question_text_en, v, q.question_type⟩
    let s2 : Session := { s with responses := responses2,
                                 current_question_index := s.current_question_index + 1 }
    if s2.current_question_index ≥ (getApplicableQuestions responses2).length then
      completeConsultation s2
    else
      (s2, ⟨"next_question", false⟩)
  else
    completeConsultation s

/-- The `(question_id, accepted responses)` table of
`EnhancedCancerConsultationSession._identify_high_risk_symptoms`. -/
def highRiskResponseTable : List (String × List String) :=
  [("blood_in_sputum", ["Yes", "হ্যাঁ"]),
   ("unusual_bleeding", ["Yes", "হ্যাঁ"]),
   ("unexplained_weight_loss", ["Yes", "হ্যাঁ"]),
   ("swallowing_difficulties", ["Difficulty swallowing", "Multiple symptoms", "গিলতে অসুবিধা",
                                "একাধিক লক্ষণ"])]

/-- `EnhancedCancerConsultationSession._identify_high_risk_symptoms`. -/
def identifyHighRiskSymptoms (responses : Responses) : Bool :=
  highRiskResponseTable.any (fun e => e.2.contains (responseOf responses e.1))

/-- `EnhancedCancerConsultationSession._determine_urgency_level`.
`cancerHistory` is `processed_data["demographics"]["cancer_history"]`, the
boolean produced by `_convert_cancer_history`. -/
def determineUrgencyLevel (sa : SymptomsAnalysis) (ra : RiskAssessment) (cancerHistory : Bool)
    (responses : Responses) : String :=
  if sa.requires_immediate_attention ∨ identifyHighRiskSymptoms responses ∨ sa.urgency_score ≥ 8 then
    "CRITICAL"
  else if sa.urgency_score ≥ 6 ∨ ra.high_risk_cancers.length > 2 ∨
      (cancerHistory ∧ sa.urgency_score ≥ 4) then
    "HIGH"
  else if sa.urgency_score ≥ 4 ∨ ra.high_risk_cancers.length > 0 then
    "MODERATE"
  else
    "LOW"

/-- The six-flag list that the claim (and the spec's urgency-evaluation
paragraph) attributes to the final urgency check; the source's
`_identify_high_risk_symptoms` actually consults the four-row
`highRiskResponseTable`. -/
def claimedHighRiskFlagIds : List String :=
  ["blood_in_sputum", "unusual_bleeding", "unexplained_weight_loss", "persistent_pain",
   "breast_changes", "testicular_lumps"]

/-- The high-risk-symptom flag as the claim words it: any of the six questions
answered `"Yes"`. -/
def claimedHighRiskFlag (responses : Responses) : Bool :=
  claimedHighRiskFlagIds.any (fun q => responseOf responses q = "Yes")

/-- A symptom analysis with nothing identified (urgency 0, no immediate
flag). -/
def quietSymptomsAnalysis : SymptomsAnalysis :=
  { identified_symptoms := [], urgency_score := 0, possible_cancer_types := [],
    requires_immediate_attention := false, symptom_details := [] }

/-- A risk assessment with no applicable risk factors. -/
def emptyRiskAssessment : RiskAssessment :=
  { overall_risk_score := 0, cancer_specific_risks := [], high_risk_cancers := [],
    recommended_screenings := [] }

/-- A response set whose only entry answers the persistent-pain question with
`"Yes"`. -/
def painOnlyResponses : Responses :=
  [("persistent_pain",
    { question := "Do you have persistent pain that doesn\x27t go away and gets worse?",
      response := "Yes", question_type := "yes_no" })]

/-- The screening start age as the claim words it: the earlier high-risk start
age applies whenever the cancer's risk level is high or critical. -/
def claimedScreeningStartAge (g : ScreeningGuideline) (riskLevel : String) : Int :=
  if riskLevel = "high" ∨ riskLevel = "critical" then g.high_risk_start.getD g.age_start
  else g.age_start

/-- The combined differential-diagnosis score of a cancer type as the claim
describes it: a 0.6 base when the symptom stage implicates the type, plus 0.4
times its risk-stage score (0 when absent). -/
def combinedScore (sa : SymptomsAnalysis) (ra : RiskAssessment) (ct : CancerType) : ℚ :=
  (if ct ∈ sa.possible_cancer_types then 0.6 else 0) +
  ((dictFind ra.cancer_specific_risks ct).map (fun e => e.risk_score)).getD 0 * 0.4

/-- A symptom analysis implicating lung cancer, used as a concrete input. -/
def lungSymptomsAnalysis : SymptomsAnalysis :=
  { identified_symptoms := ["Persistent Cough"], urgency_score := 7,
    possible_cancer_types := [CancerType.lung], requires_immediate_attention := true,
    symptom_details := [] }

/-- A risk assessment with lung cancer at critical risk, used as a concrete
input. -/
def lungRiskAssessment : RiskAssessment :=
  { overall_risk_score := 0.9,
    cancer_specific_risks :=
      [(CancerType.lung,
        { risk_score := 0.9, risk_level := "critical", contributing_factors := ["Smoking"] })],
    high_risk_cancers := [CancerType.lung], recommended_screenings := [] }

section DictLemmas

variable {α β : Type} [DecidableEq α]

theorem dictFind_dictSet_self (d : List (α × β)) (k : α) (v : β) :
    dictFind (dictSet d k v) k = some v := by
  induction d with
  | nil => simp [dictSet, dictFind]
  | cons hd t ih =>
    obtain ⟨k2, v2⟩ := hd
    by_cases h : k2 = k
    · simp [dictSet, dictFind, h]
    · simp [dictSet, dictFind, h, ih]

theorem dictFind_dictSet_ne (d : List (α × β)) (k : α) (v : β) (k2 : α) (h : k2 ≠ k) :
    dictFind (dictSet d k v) k2 = dictFind d k2 := by
  have hk : k ≠ k2 := Ne.symm h
  induction d with
  | nil => simp [dictSet, dictFind, hk]
  | cons hd t ih =>
    obtain ⟨k3, v3⟩ := hd
    by_cases h3 : k3 = k
    · subst h3
      simp [dictSet, dictFind, hk]
    · simp [dictSet, dictFind, h3, ih]

theorem mem_of_dictFind_eq_some {d : List (α × β)} {k : α} {v : β}
    (h : dictFind d k = some v) : (k, v) ∈ d := by
  induction d with
  | nil => simp [dictFind] at h
  | cons hd t ih =>
    obtain ⟨k2, v2⟩ := hd
    by_cases h2 : k2 = k
    · subst h2
      simp [dictFind] at h
      subst h
      exact List.mem_cons_self _ _
    · simp only [dictFind, if_neg h2] at h
      exact List.mem_cons_of_mem _ (ih h)

theorem dictFind_eq_none_of_not_mem_keys {d : List (α × β)} {k : α}
    (h : k ∉ d.map Prod.fst) : dictFind d k = none := by
  induction d with
  | nil => simp [dictFind]
  | cons hd t ih =>
    obtain ⟨k2, v2⟩ := hd
    simp only [List.map_cons, List.mem_cons] at h
    push_neg at h
    have hk : k2 ≠ k := Ne.symm h.1
    simp [dictFind, hk, ih h.2]

theorem dictFind_eq_some_of_mem {d : List (α × β)} (hnd : (d.map Prod.fst).Nodup)
    {k : α} {v : β} (h : (k, v) ∈ d) : dictFind d k = some v := by
  induction d with
  | nil => simp at h
  | cons hd t ih =>
    obtain ⟨k2, v2⟩ := hd
    simp only [List.map_cons, List.nodup_cons] at hnd
    rcases List.mem_cons.mp h with h1 | h1
    · cases h1
      simp [dictFind]
    · have hk : ¬k2 = k := by
        rintro rfl
        exact hnd.1 (List.mem_map.mpr ⟨(k2, v), h1, rfl⟩)
      simp only [dictFind, if_neg hk]
      exact ih hnd.2 h1

theorem mem_keys_iff_dictFind_isSome (d : List (α × β)) (k : α) :
    k ∈ d.map Prod.fst ↔ (dictFind d k).isSome := by
  induction d with
  | nil => simp [dictFind]
  | cons hd t ih =>
    obtain ⟨k2, v2⟩ := hd
    by_cases h : k2 = k
    · subst h
      simp [dictFind]
    · have hk : k ≠ k2 := Ne.symm h
      simp [dictFind, h, hk, ih]

theorem keys_dictSet (d : List (α × β)) (k : α) (v : β) (k2 : α) :
    k2 ∈ (dictSet d k v).map Prod.fst ↔ k2 = k ∨ k2 ∈ d.map Prod.fst := by
  induction d with
  | nil => simp [dictSet]
  | cons hd t ih =>
    obtain ⟨k3, v3⟩ := hd
    by_cases h : k3 = k
    · subst h
      simp [dictSet]
    · simp only [dictSet, if_neg h, List.map_cons, List.mem_cons, ih]
      tauto

theorem keys_dictSet_nodup (d : List (α × β)) (k : α) (v : β)
    (hnd : (d.map Prod.fst).Nodup) : ((dictSet d k v).map Prod.fst).Nodup := by
  induction d with
  | nil => simp [dictSet]
  | cons hd t ih =>
    obtain ⟨k3, v3⟩ := hd
    simp only [List.map_cons, List.nodup_cons] at hnd
    by_cases h : k3 = k
    · subst h
      have h1 : ∀ x : β, (k3, x) ∉ t :=
        fun x hx => hnd.1 (List.mem_map.mpr ⟨(k3, x), hx, rfl⟩)
      simpa [dictSet] using ⟨h1, hnd.2⟩
    · simp only [dictSet, if_neg h, List.map_cons, List.nodup_cons]
      refine ⟨fun hmem => ?_, ih hnd.2⟩
      rcases (keys_dictSet t k v k3).mp hmem with h2 | h2
      · exact h h2
      · exact hnd.1 h2

end DictLemmas

/-- C4: every numeric risk score is categorized by the fixed inclusive
thresholds 0.8 / 0.6 / 0.3, and each boundary value named by the spec lands in
the stated level. -/
theorem risk_level_thresholds (s : ℚ) :
    (categorizeRiskLevel s = RiskLevel.critical ↔ 0.8 ≤ s) ∧
    (categorizeRiskLevel s = RiskLevel.high ↔ 0.6 ≤ s ∧ s < 0.8) ∧
    (categorizeRiskLevel s = RiskLevel.moderate ↔ 0.3 ≤ s ∧ s < 0.6) ∧
    (categorizeRiskLevel s = RiskLevel.low ↔ s < 0.3) ∧
    categorizeRiskLevel 0.8 = RiskLevel.critical ∧
    categorizeRiskLevel 0.7999 = RiskLevel.high ∧
    categorizeRiskLevel 0.6 = RiskLevel.high ∧
    categorizeRiskLevel 0.5999 = RiskLevel.moderate ∧
    categorizeRiskLevel 0.3 = RiskLevel.moderate ∧
    categorizeRiskLevel 0.2999 = RiskLevel.low := by
  refine ⟨?_, ?_, ?_, ?_, by norm_num [categorizeRiskLevel], by norm_num [categorizeRiskLevel],
    by norm_num [categorizeRiskLevel], by norm_num [categorizeRiskLevel],
    by norm_num [categorizeRiskLevel], by norm_num [categorizeRiskLevel]⟩ <;>
    · unfold categorizeRiskLevel
      split_ifs with h1 h2 h3 <;> simp_all [ge_iff_le] <;>
        first
          | linarith
          | (intro hcontra; linarith)

/-- C7 (amended): `generate_llm_enhanced_response` is total.  On collaborator
success it returns the collaborator text; on collaborator failure it recovers
locally and returns the fixed non-empty language-dependent apology string
(which does not depend on the analysis results). -/
theorem llm_response_error_recovery (language : String) (client : Completion)
    (analysisResults : String) :
    (∀ r, client analysisResults = Except.ok r →
        generateLlmEnhancedResponse language client analysisResults = r) ∧
    (∀ e, client analysisResults = Except.error e →
        generateLlmEnhancedResponse language client analysisResults = llmErrorFallback language) ∧
    llmErrorFallback language ≠ "" := by
  refine ⟨fun r h => ?_, fun e h => ?_, ?_⟩
  · simp [generateLlmEnhancedResponse, h]
  · simp [generateLlmEnhancedResponse, h]
  · unfold llmErrorFallback
    split_ifs <;> decide

/-- Witness for C7: a collaborator that always raises still yields the
fallback string. -/
theorem llm_response_error_recovery_witness :
    generateLlmEnhancedResponse "en" (fun _ => Except.error "ServiceError") "analysis"
      = llmErrorFallback "en" :=
  (llm_response_error_recovery "en" (fun _ => Except.error "ServiceError") "analysis").2.1
    "ServiceError" rfl

/-- Counterexample for C7 as stated: when the collaborator raises, the
returned string is the same fixed error apology for two different structured
analysis results — it is an error notice, not a narrative built from the
structured stage outputs. -/
theorem llm_response_fallback_not_from_outputs :
    generateLlmEnhancedResponse "en" (fun _ => Except.error "ServiceError") "analysisResultsA"
      = "Sorry, there was an error generating the analysis. Please try again." ∧
    generateLlmEnhancedResponse "en" (fun _ => Except.error "ServiceError") "analysisResultsB"
      = "Sorry, there was an error generating the analysis. Please try again." :=
  ⟨rfl, rfl⟩

theorem analyzeLoop_identified (input : SymptomsData) (db : List (String × CancerSymptom)) :
    (analyzeLoop input db).2.1 =
      (db.filter (fun e => symptomMentioned e.1 input.description)).map
        (fun e => updateSymptom e.2 input) := by
  induction db with
  | nil => simp [analyzeLoop]
  | cons hd t ih =>
    obtain ⟨k, s⟩ := hd
    by_cases h : symptomMentioned k input.description
    · simp [analyzeLoop, h, List.filter_cons, ih]
    · simp [analyzeLoop, h, List.filter_cons, ih]

theorem analyzeLoop_total (input : SymptomsData) (db : List (String × CancerSymptom)) :
    (analyzeLoop input db).2.2 =
      ((db.filter (fun e => symptomMentioned e.1 input.description)).map
        (fun e => e.2.urgency_score)).sum := by
  induction db with
  | nil => simp [analyzeLoop]
  | cons hd t ih =>
    obtain ⟨k, s⟩ := hd
    by_cases h : symptomMentioned k input.description
    · simp [analyzeLoop, h, List.filter_cons, ih, updateSymptom]
    · simp [analyzeLoop, h, List.filter_cons, ih]

theorem analyzeLoop_dictFind (input : SymptomsData) (db : List (String × CancerSymptom))
    (k : String) :
    dictFind (analyzeLoop input db).1 k =
      if symptomMentioned k input.description then
        (dictFind db k).map (fun s => updateSymptom s input)
      else
        dictFind db k := by
  induction db with
  | nil => simp [analyzeLoop, dictFind]
  | cons hd t ih =>
    obtain ⟨k2, s⟩ := hd
    by_cases hk : k2 = k
    · subst hk
      by_cases h : symptomMentioned k2 input.description
      · simp [analyzeLoop, h, dictFind]
      · simp [analyzeLoop, h, dictFind]
    · by_cases h : symptomMentioned k2 input.description
      · simp [analyzeLoop, h, dictFind, hk, ih]
      · simp [analyzeLoop, h, dictFind, hk, ih]

/-- C5: the urgency score of `analyze_symptoms` is the arithmetic mean of the
static urgency weights of the knowledge-base symptoms whose keywords match the
description (0 when none match), and `requires_immediate_attention` holds
exactly when that score is at least 7. -/
theorem symptom_urgency_mean (desc : String) (sev : Option Int) (dur : Option String) :
    (analyzeSymptoms symptomsDb ⟨desc, sev, dur⟩).2.urgency_score =
      (if symptomsDb.filter (fun e => symptomMentioned e.1 desc) = [] then 0
       else (Int.cast (((symptomsDb.filter (fun e => symptomMentioned e.1 desc)).map
                (fun e => e.2.urgency_score)).sum) : ℚ) /
            (symptomsDb.filter (fun e => symptomMentioned e.1 desc)).length) ∧
    ((analyzeSymptoms symptomsDb ⟨desc, sev, dur⟩).2.requires_immediate_attention = true ↔
      (analyzeSymptoms symptomsDb ⟨desc, sev, dur⟩).2.urgency_score ≥ 7) := by
  constructor
  · simp only [analyzeSymptoms, analyzeLoop_identified ⟨desc, sev, dur⟩ symptomsDb,
      analyzeLoop_total ⟨desc, sev, dur⟩ symptomsDb, List.length_map, List.isEmpty_iff,
      List.map_eq_nil_iff]
  · constructor
    · intro h
      exact of_decide_eq_true h
    · intro h
      exact decide_eq_true h

/-- C10: `analyze_symptoms` overwrites, in the shared `symptoms_db` it
returns as the engine state, the `severity` field of every matched symptom
with the single caller-supplied severity (default 5) and its `duration` with
the supplied duration (default `"unknown"`), and leaves every unmatched entry
untouched. -/
theorem analyze_symptoms_mutates_db (desc : String) (sev : Option Int) (dur : Option String)
    (k : String) :
    (symptomMentioned k desc = true →
      dictFind (analyzeSymptoms symptomsDb ⟨desc, sev, dur⟩).1 k =
        (dictFind symptomsDb k).map (fun s =>
          { s with severity := sev.getD 5, duration := dur.getD "unknown" })) ∧
    (symptomMentioned k desc = false →
      dictFind (analyzeSymptoms symptomsDb ⟨desc, sev, dur⟩).1 k = dictFind symptomsDb k) := by
  have h := analyzeLoop_dictFind ⟨desc, sev, dur⟩ symptomsDb k
  constructor
  · intro hm
    rw [hm] at h
    simpa [analyzeSymptoms, updateSymptom] using h
  · intro hm
    rw [hm] at h
    simpa [analyzeSymptoms] using h

/-- Witness for C10: a description matching the persistent-cough entry leaves
its severity at the default 5 and its duration at `"unknown"`, in the database
returned by the call. -/
theorem analyze_symptoms_mutates_db_witness :
    dictFind (analyzeSymptoms symptomsDb ⟨"coughing a lot", none, none⟩).1 "persistent_cough" =
      some { name := "Persistent Cough", severity := 5, duration := "unknown",
             associated_symptoms := ["blood_in_sputum", "chest_pain", "shortness_of_breath"],
             cancer_types := [CancerType.lung], urgency_score := 7 } := by
  have h := (analyze_symptoms_mutates_db "coughing a lot" none none "persistent_cough").1
    (by decide)
  rw [h]
  rfl

/-- Counterexample for C1 as stated: answering `"Yes"` to the persistent-pain
question raises the claimed six-question flag, yet the code classifies the
consultation as `LOW`, because `_identify_high_risk_symptoms` does not consult
that question. -/
theorem urgency_label_flag_counterexample :
    claimedHighRiskFlag painOnlyResponses = true ∧
    determineUrgencyLevel quietSymptomsAnalysis emptyRiskAssessment false painOnlyResponses
      = "LOW" := by
  constructor
  · decide
  · have h1 : identifyHighRiskSymptoms painOnlyResponses = false := by decide
    simp [determineUrgencyLevel, quietSymptomsAnalysis, emptyRiskAssessment, h1]
    norm_num

/-- C1 (amended): the final urgency label is computed by the ordered checks of
`_determine_urgency_level`, where the high-risk-symptom flag is the one of
`_identify_high_risk_symptoms`: it is raised exactly when blood-in-sputum,
unusual-bleeding or unexplained-weight-loss was answered `"Yes"` (English or
Bengali), or the swallowing-difficulties question was answered with the
difficulty-swallowing or multiple-symptoms option. -/
theorem urgency_label_characterization (sa : SymptomsAnalysis) (ra : RiskAssessment)
    (cancerHistory : Bool) (responses : Responses) :
    (identifyHighRiskSymptoms responses = true ↔
      (responseOf responses "blood_in_sputum" ∈ (["Yes", "হ্যাঁ"] : List String) ∨
       responseOf responses "unusual_bleeding" ∈ (["Yes", "হ্যাঁ"] : List String) ∨
       responseOf responses "unexplained_weight_loss" ∈ (["Yes", "হ্যাঁ"] : List String) ∨
       responseOf responses "swallowing_difficulties" ∈
         (["Difficulty swallowing", "Multiple symptoms", "গিলতে অসুবিধা", "একাধিক লক্ষণ"] :
           List String))) ∧
    (determineUrgencyLevel sa ra cancerHistory responses = "CRITICAL" ↔
      (sa.requires_immediate_attention = true ∨ identifyHighRiskSymptoms responses = true ∨
       sa.urgency_score ≥ 8)) ∧
    (determineUrgencyLevel sa ra cancerHistory responses = "HIGH" ↔
      (¬(sa.requires_immediate_attention = true ∨ identifyHighRiskSymptoms responses = true ∨
         sa.urgency_score ≥ 8) ∧
       (sa.urgency_score ≥ 6 ∨ 2 < ra.high_risk_cancers.length ∨
        (cancerHistory = true ∧ sa.urgency_score ≥ 4)))) ∧
    (determineUrgencyLevel sa ra cancerHistory responses = "MODERATE" ↔
      (¬(sa.requires_immediate_attention = true ∨ identifyHighRiskSymptoms responses = true ∨
         sa.urgency_score ≥ 8) ∧
       ¬(sa.urgency_score ≥ 6 ∨ 2 < ra.high_risk_cancers.length ∨
         (cancerHistory = true ∧ sa.urgency_score ≥ 4)) ∧
       (sa.urgency_score ≥ 4 ∨ 0 < ra.high_risk_cancers.length))) ∧
    (determineUrgencyLevel sa ra cancerHistory responses = "LOW" ↔
      (¬(sa.requires_immediate_attention = true ∨ identifyHighRiskSymptoms responses = true ∨
         sa.urgency_score ≥ 8) ∧
       ¬(sa.urgency_score ≥ 6 ∨ 2 < ra.high_risk_cancers.length ∨
         (cancerHistory = true ∧ sa.urgency_score ≥ 4)) ∧
       ¬(sa.urgency_score ≥ 4 ∨ 0 < ra.high_risk_cancers.length))) := by
  refine ⟨?_, ?_, ?_, ?_, ?_⟩
  · simp [identifyHighRiskSymptoms, highRiskResponseTable, List.any_cons]
  all_goals
    unfold determineUrgencyLevel
    split_ifs with h1 h2 h3 <;> simp_all

theorem bool_eq_decide {P : Prop} [Decidable P] {b : Bool} (h : b = true ↔ P) :
    b = decide P := by
  cases b
  · have hp : ¬P := fun hp => Bool.false_ne_true (h.mpr hp)
    simp [hp]
  · have hp : P := h.mp rfl
    simp [hp]

theorem conditionOk_true_iff (responses : Responses) (key : String)
    (conditions : List (String × List String)) :
    conditionOk responses key conditions = true ↔
      ∀ allowed, dictFind conditions key = some allowed →
        ∃ s, dictFind responses key = some s ∧ s.response ∈ allowed := by
  unfold conditionOk
  cases hc : dictFind conditions key with
  | none =>
    simp
  | some allowed =>
    cases hr : dictFind responses key with
    | none =>
      constructor
      · intro h
        exact absurd h (by simp)
      · intro h
        obtain ⟨s, hs, _⟩ := h allowed rfl
        simp at hs
    | some r =>
      constructor
      · intro h
        intro allowed2 hall
        obtain rfl : allowed = allowed2 := by injection hall
        exact ⟨r, rfl, by simpa using h⟩
      · intro h
        obtain ⟨s, hs, hmem⟩ := h allowed rfl
        obtain rfl : r = s := by injection hs
        simpa using hmem

theorem shouldShow_iff_claim (q : QuestionnaireStep) (responses : Responses)
    (hkeys : ∀ c ∈ q.conditions, c.1 = "gender" ∨ c.1 = "age_group")
    (hnd : (q.conditions.map Prod.fst).Nodup) :
    shouldShowQuestion q responses = true ↔
      ∀ c ∈ q.conditions, ∃ s, dictFind responses c.1 = some s ∧ s.response ∈ c.2 := by
  unfold shouldShowQuestion
  by_cases hemp : q.conditions.isEmpty
  · rw [if_pos hemp]
    have he : q.conditions = [] := by simpa using hemp
    simp [he]
  · rw [if_neg hemp, Bool.and_eq_true, conditionOk_true_iff, conditionOk_true_iff]
    constructor
    · rintro ⟨hg, ha⟩ ⟨cf, cv⟩ hc
      rcases hkeys ⟨cf, cv⟩ hc with hk | hk <;> simp only at hk <;> subst hk
      · exact hg cv (dictFind_eq_some_of_mem hnd hc)
      · exact ha cv (dictFind_eq_some_of_mem hnd hc)
    · intro h
      constructor
      · intro allowed hfind
        exact h ("gender", allowed) (mem_of_dictFind_eq_some hfind)
      · intro allowed hfind
        exact h ("age_group", allowed) (mem_of_dictFind_eq_some hfind)

theorem catalog_conditions_wellformed :
    ∀ q ∈ questionnaireCatalog,
      (∀ c ∈ q.conditions, c.1 = "gender" ∨ c.1 = "age_group") ∧
      (q.conditions.map Prod.fst).Nodup := by
  decide

/-- C8: `get_applicable_questions` keeps a catalog question exactly when every
one of its visibility constraints is satisfied by the current answers (a
constraint on a not-yet-answered field counts as unsatisfied), it preserves
catalog definition order, and it is a pure function of the answers. -/
theorem applicable_questions_visibility (responses : Responses) :
    getApplicableQuestions responses =
      questionnaireCatalog.filter (fun q =>
        decide (∀ c ∈ q.conditions, ∃ s, dictFind responses c.1 = some s ∧ s.response ∈ c.2)) ∧
    (getApplicableQuestions responses).Sublist questionnaireCatalog := by
  constructor
  · unfold getApplicableQuestions
    apply List.filter_congr
    intro q hq
    exact bool_eq_decide (shouldShow_iff_claim q responses
      (catalog_conditions_wellformed q hq).1 (catalog_conditions_wellformed q hq).2)
  · exact List.filter_sublist _

/-- Counterexample for C3 as stated: the first active question of a fresh
session is the age-group question, `"garbage"` is not among its options, yet
`process_response` stores it verbatim, advances the cursor and reports the
next question — no `InvalidAnswerError` exists anywhere in the code — and
calling it on a session whose cursor is already past the applicable list
completes the consultation instead of raising. -/
theorem submit_answer_no_validation_counterexample :
    ((getApplicableQuestions ([] : Responses)).head?.map (fun q => q.question_id)
      = some "age_group") ∧
    ((getApplicableQuestions ([] : Responses)).head?.map (fun q => decide ("garbage" ∈ q.options_en))
      = some false) ∧
    ((processResponse ⟨[], 0, false⟩ "garbage").1.current_question_index = 1) ∧
    (dictFind (processResponse ⟨[], 0, false⟩ "garbage").1.responses "age_group"
      = some ⟨"What is your age group?", "garbage", "multiple_choice"⟩) ∧
    ((processResponse ⟨[], 0, false⟩ "garbage").2 = ⟨"next_question", false⟩) ∧
    (processResponse ⟨[], 99, false⟩ "anything"
      = (⟨[], 99, true⟩, ⟨"consultation_complete", true⟩)) := by
  decide

/-- C3 (amended): `process_response` never raises and performs no validation:
with an active question it stores any submitted value verbatim, advances the
cursor and returns a non-error result; with no active question (cursor at or
past the applicable list) it completes the consultation instead of raising. -/
theorem submit_answer_total_behavior (s : Session) (v : String) :
    (∀ h : s.current_question_index < (getApplicableQuestions s.responses).length,
      (processResponse s v).1.responses =
        dictSet s.responses
          ((getApplicableQuestions s.responses).get ⟨s.current_question_index, h⟩).question_id
          ⟨((getApplicableQuestions s.responses).get ⟨s.current_question_index, h⟩).question_text_en,
           v,
           ((getApplicableQuestions s.responses).get ⟨s.current_question_index, h⟩).question_type⟩ ∧
      (processResponse s v).1.current_question_index = s.current_question_index + 1 ∧
      (processResponse s v).2.rtype ≠ "error") ∧
    ((getApplicableQuestions s.responses).length ≤ s.current_question_index →
      processResponse s v =
        ({ s with consultation_complete := true }, ⟨"consultation_complete", true⟩)) := by
  constructor
  · intro h
    unfold processResponse
    rw [dif_pos h]
    dsimp only
    split_ifs with h2 <;> simp [completeConsultation]
  · intro h
    unfold processResponse
    rw [dif_neg (by omega)]
    rfl

/-- Witness for C3: storing an arbitrary answer advances a fresh session to
cursor 1, and a call on a session already past the applicable list returns
the completion result. -/
theorem submit_answer_total_behavior_witness :
    (processResponse ⟨[], 0, false⟩ "Male").1.current_question_index = 1 ∧
    processResponse ⟨[], 25, false⟩ "x"
      = (⟨[], 25, true⟩, ⟨"consultation_complete", true⟩) :=
  ⟨((submit_answer_total_behavior ⟨[], 0, false⟩ "Male").1 (by decide)).2.1,
   (submit_answer_total_behavior ⟨[], 25, false⟩ "x").2 (by decide)⟩

/-- C9: a `process_response` call on a session with an active question always
advances the cursor by one, and the call reports the session terminal exactly
when the advanced cursor reaches or exceeds the applicable list recomputed
from the stored answers — never earlier and never later, however the list
grew or shrank. -/
theorem session_terminal_boundary (s : Session) (v : String)
    (h : s.current_question_index < (getApplicableQuestions s.responses).length) :
    ((processResponse s v).1.current_question_index = s.current_question_index + 1) ∧
    ((processResponse s v).2.consultation_complete = true ↔
      (getApplicableQuestions (dictSet s.responses
        ((getApplicableQuestions s.responses).get ⟨s.current_question_index, h⟩).question_id
        ⟨((getApplicableQuestions s.responses).get ⟨s.current_question_index, h⟩).question_text_en,
         v,
         ((getApplicableQuestions s.responses).get
           ⟨s.current_question_index, h⟩).question_type⟩)).length
        ≤ s.current_question_index + 1) ∧
    (s.consultation_complete = false →
      ((processResponse s v).1.consultation_complete = true ↔
        (getApplicableQuestions (dictSet s.responses
          ((getApplicableQuestions s.responses).get ⟨s.current_question_index, h⟩).question_id
          ⟨((getApplicableQuestions s.responses).get ⟨s.current_question_index, h⟩).question_text_en,
           v,
           ((getApplicableQuestions s.responses).get
             ⟨s.current_question_index, h⟩).question_type⟩)).length
          ≤ s.current_question_index + 1)) := by
  unfold processResponse
  rw [dif_pos h]
  dsimp only
  split_ifs with h2
  · simp only [completeConsultation]
    refine ⟨by first | rfl | trivial, ?_, fun _ => ?_⟩ <;> simpa using h2
  · rw [ge_iff_le] at h2
    simp only [List.get_eq_getElem] at h2 ⊢
    refine ⟨by first | rfl | trivial, ?_, fun hc => ?_⟩
    · simp only [Bool.false_eq_true, false_iff]
      omega
    · rw [hc]
      simp only [Bool.false_eq_true, false_iff]
      omega

/-- Witness for C9: answering the first question of a fresh session advances
the cursor to 1 and does not terminate the session. -/
theorem session_terminal_boundary_witness :
    (processResponse ⟨[], 0, false⟩ "Under 30").1.current_question_index = 1 ∧
    (processResponse ⟨[], 0, false⟩ "Under 30").2.consultation_complete = false := by
  have h := session_terminal_boundary ⟨[], 0, false⟩ "Under 30" (by decide)
  refine ⟨h.1, ?_⟩
  cases hb : (processResponse ⟨[], 0, false⟩ "Under 30").2.consultation_complete with
  | false => rfl
  | true => exact absurd (h.2.1.mp hb) (by decide)

theorem screeningString_inj (ct1 ct2 : CancerType) (g1 g2 : ScreeningGuideline)
    (h1 : dictFind screeningGuidelines ct1 = some g1)
    (h2 : dictFind screeningGuidelines ct2 = some g2)
    (heq : screeningString ct1 g1 = screeningString ct2 g2) : ct1 = ct2 := by
  cases ct1 <;> cases ct2 <;> simp [screeningGuidelines, dictFind] at h1 h2 <;> try rfl
  all_goals
    subst h1
    subst h2
    exact absurd heq (by decide)

theorem mem_getScreeningRecommendations (risks : List (CancerType × CancerRiskEntry))
    (age : Int) (ct : CancerType) (g : ScreeningGuideline)
    (hg : dictFind screeningGuidelines ct = some g)
    (hnd : (risks.map Prod.fst).Nodup) :
    screeningString ct g ∈ getScreeningRecommendations risks age ↔
      ∃ e, (ct, e) ∈ risks ∧ age ≥ appliedStartAge g e.risk_level := by
  induction risks with
  | nil => simp [getScreeningRecommendations]
  | cons hd t ih =>
    obtain ⟨ct2, e2⟩ := hd
    simp only [List.map_cons, List.nodup_cons] at hnd
    have iht := ih hnd.2
    by_cases hct : ct2 = ct
    · subst hct
      have hnotin : ∀ e, (ct2, e) ∉ t := by
        intro e he
        exact hnd.1 (List.mem_map.mpr ⟨(ct2, e), he, rfl⟩)
      by_cases hage : age ≥ appliedStartAge g e2.risk_level
      · simp only [getScreeningRecommendations, hg, if_pos hage]
        constructor
        · intro _
          exact ⟨e2, List.mem_cons_self _ _, hage⟩
        · intro _
          exact List.mem_cons_self _ _
      · simp only [getScreeningRecommendations, hg, if_neg hage]
        rw [iht]
        constructor
        · rintro ⟨e, he, hagee⟩
          exact absurd he (hnotin e)
        · rintro ⟨e, he, hagee⟩
          rcases List.mem_cons.mp he with he1 | he1
          · cases he1
            exact absurd hagee hage
          · exact absurd he1 (hnotin e)
    · cases hfind : dictFind screeningGuidelines ct2 with
      | none =>
        simp only [getScreeningRecommendations, hfind]
        rw [iht]
        constructor
        · rintro ⟨e, he, hagee⟩
          exact ⟨e, List.mem_cons_of_mem _ he, hagee⟩
        · rintro ⟨e, he, hagee⟩
          rcases List.mem_cons.mp he with he1 | he1
          · cases he1
            exact absurd rfl hct
          · exact ⟨e, he1, hagee⟩
      | some g2 =>
        by_cases hage : age ≥ appliedStartAge g2 e2.risk_level
        · simp only [getScreeningRecommendations, hfind, if_pos hage]
          rw [List.mem_cons, iht]
          constructor
          · rintro (hs | ⟨e, he, hagee⟩)
            · exact absurd (screeningString_inj ct ct2 g g2 hg hfind hs).symm hct
            · exact ⟨e, List.mem_cons_of_mem _ he, hagee⟩
          · rintro ⟨e, he, hagee⟩
            rcases List.mem_cons.mp he with he1 | he1
            · cases he1
              exact absurd rfl hct
            · exact Or.inr ⟨e, he1, hagee⟩
        · simp only [getScreeningRecommendations, hfind, if_neg hage]
          rw [iht]
          constructor
          · rintro ⟨e, he, hagee⟩
            exact ⟨e, List.mem_cons_of_mem _ he, hagee⟩
          · rintro ⟨e, he, hagee⟩
            rcases List.mem_cons.mp he with he1 | he1
            · cases he1
              exact absurd rfl hct
            · exact ⟨e, he1, hagee⟩

theorem keys_cancerRisksLoop_sublist (p : PatientData) (l : List CancerType) :
    ((cancerRisksLoop p l).map Prod.fst).Sublist l := by
  induction l with
  | nil => simp [cancerRisksLoop]
  | cons hd t ih =>
    simp only [cancerRisksLoop]
    split_ifs with h
    · simpa using ih.cons₂ hd
    · exact ih.trans (List.sublist_cons_self _ _)

theorem cancerSpecificRisks_keys_nodup (p : PatientData) :
    ((cancerSpecificRisks p).map Prod.fst).Nodup :=
  (keys_cancerRisksLoop_sublist p cancerTypeIterationOrder).nodup (by decide)

/-- Counterexample for C2 as stated: with age 35, family history and heavy
drinking, breast cancer is at critical risk, the claim's applicable start age
is the high-risk 30 (which 35 meets, so the claim mandates a breast-screening
recommendation), yet the code recommends nothing, because it consults the
high-risk start age only for the exact level string "high". -/
theorem screening_start_age_counterexample :
    ((dictFind (assessRiskFactors ⟨35, false, true, true, false, false⟩).cancer_specific_risks
        CancerType.breast).map (fun e => e.risk_level) = some "critical") ∧
    ((dictFind screeningGuidelines CancerType.breast).map
        (fun g => claimedScreeningStartAge g "critical") = some 30) ∧
    ((35 : Int) ≥ 30) ∧
    ((assessRiskFactors ⟨35, false, true, true, false, false⟩).recommended_screenings = []) := by
  have happ : applicableRisks ⟨35, false, true, true, false, false⟩ =
      [{ factor := "Family History", weight := 0.7,
         applicable_cancers := [CancerType.breast, CancerType.colorectal, CancerType.prostate] },
       { factor := "Heavy Alcohol Consumption", weight := 0.5,
         applicable_cancers := [CancerType.liver, CancerType.breast, CancerType.colorectal] }] := by
    simp [applicableRisks, riskFactorsDb, riskFactorPresent]
  have hrisks : cancerSpecificRisks ⟨35, false, true, true, false, false⟩ =
      [(CancerType.breast,
        { risk_score := 1, risk_level := "critical",
          contributing_factors := ["Family History", "Heavy Alcohol Consumption"] }),
       (CancerType.colorectal,
        { risk_score := 1, risk_level := "critical",
          contributing_factors := ["Family History", "Heavy Alcohol Consumption"] }),
       (CancerType.prostate,
        { risk_score := 0.7, risk_level := "high", contributing_factors := ["Family History"] }),
       (CancerType.liver,
        { risk_score := 0.5, risk_level := "moderate",
          contributing_factors := ["Heavy Alcohol Consumption"] })] := by
    simp [cancerSpecificRisks, cancerRisksLoop, cancerTypeIterationOrder, happ,
      categorizeRiskLevel, RiskLevel.value, min_def, List.filter_cons]
    norm_num
  have hfield : (assessRiskFactors ⟨35, false, true, true, false, false⟩).cancer_specific_risks =
      cancerSpecificRisks ⟨35, false, true, true, false, false⟩ := rfl
  have hscreen : (assessRiskFactors ⟨35, false, true, true, false, false⟩).recommended_screenings =
      getScreeningRecommendations (cancerSpecificRisks ⟨35, false, true, true, false, false⟩)
        35 := rfl
  refine ⟨?_, by decide, by decide, ?_⟩
  · rw [hfield, hrisks]
    rfl
  · rw [hscreen, hrisks]
    rfl

/-- C2 (amended): for every patient-attributes input and every cancer type in
the resulting risk assessment that has a guideline entry, the screening for
that cancer is recommended exactly when the patient's age is at least the
applicable start age, where the guideline's high-risk start age applies only
when the risk level is exactly "high" (and the guideline defines one —
otherwise, including at critical level, the normal start age applies). -/
theorem screening_start_age_rule (p : PatientData) (ct : CancerType) (e : CancerRiskEntry)
    (g : ScreeningGuideline)
    (h1 : dictFind (assessRiskFactors p).cancer_specific_risks ct = some e)
    (h2 : dictFind screeningGuidelines ct = some g) :
    screeningString ct g ∈ (assessRiskFactors p).recommended_screenings ↔
      p.age ≥ (if e.risk_level = "high" then g.high_risk_start.getD g.age_start
               else g.age_start) := by
  have hnd : ((assessRiskFactors p).cancer_specific_risks.map Prod.fst).Nodup :=
    cancerSpecificRisks_keys_nodup p
  rw [show (assessRiskFactors p).recommended_screenings =
      getScreeningRecommendations (assessRiskFactors p).cancer_specific_risks p.age from rfl]
  rw [mem_getScreeningRecommendations _ _ _ _ h2 hnd]
  constructor
  · rintro ⟨e2, hmem, hage⟩
    have hfind := dictFind_eq_some_of_mem hnd hmem
    rw [h1] at hfind
    injection hfind with he
    subst he
    simpa [appliedStartAge] using hage
  · intro hage
    exact ⟨e, mem_of_dictFind_eq_some h1, by simpa [appliedStartAge] using hage⟩

/-- Witness for C2: a 45-year-old with family history is at high prostate
risk, so the earlier high-risk start age 45 applies and the prostate screening
is recommended. -/
theorem screening_start_age_rule_witness :
    screeningString CancerType.prostate
        { age_start := 50, frequency := "annually", method := "PSA test",
          high_risk_start := some 45, high_risk_frequency := none, alternative := none }
      ∈ (assessRiskFactors ⟨45, false, false, true, false, false⟩).recommended_screenings := by
  have happ : applicableRisks ⟨45, false, false, true, false, false⟩ =
      [{ factor := "Family History", weight := 0.7,
         applicable_cancers := [CancerType.breast, CancerType.colorectal, CancerType.prostate] }] := by
    simp [applicableRisks, riskFactorsDb, riskFactorPresent]
  have hrisks : cancerSpecificRisks ⟨45, false, false, true, false, false⟩ =
      [(CancerType.breast,
        { risk_score := 0.7, risk_level := "high", contributing_factors := ["Family History"] }),
       (CancerType.colorectal,
        { risk_score := 0.7, risk_level := "high", contributing_factors := ["Family History"] }),
       (CancerType.prostate,
        { risk_score := 0.7, risk_level := "high", contributing_factors := ["Family History"] })] := by
    simp [cancerSpecificRisks, cancerRisksLoop, cancerTypeIterationOrder, happ,
      categorizeRiskLevel, RiskLevel.value, min_def, List.filter_cons]
    norm_num
  have h1 : dictFind (assessRiskFactors ⟨45, false, false, true, false, false⟩).cancer_specific_risks
      CancerType.prostate =
      some { risk_score := 0.7, risk_level := "high", contributing_factors := ["Family History"] } := by
    rw [show (assessRiskFactors ⟨45, false, false, true, false, false⟩).cancer_specific_risks =
        cancerSpecificRisks ⟨45, false, false, true, false, false⟩ from rfl, hrisks]
    rfl
  exact (screening_start_age_rule ⟨45, false, false, true, false, false⟩ CancerType.prostate
      { risk_score := 0.7, risk_level := "high", contributing_factors := ["Family History"] }
      { age_start := 50, frequency := "annually", method := "PSA test",
        high_risk_start := some 45, high_risk_frequency := none, alternative := none }
      h1 (by decide)).mpr (by decide)

theorem insertDesc_perm (x : CancerType × ℚ) (l : List (CancerType × ℚ)) :
    List.Perm (insertDesc x l) (x :: l) := by
  induction l with
  | nil => exact List.Perm.refl _
  | cons y ys ih =>
    simp only [insertDesc]
    split_ifs with h
    · exact List.Perm.refl _
    · exact (ih.cons y).trans (List.Perm.swap x y ys)

theorem sortDescProb_perm (l : List (CancerType × ℚ)) : List.Perm (sortDescProb l) l := by
  induction l with
  | nil => exact List.Perm.refl _
  | cons x xs ih => exact (insertDesc_perm x (sortDescProb xs)).trans (ih.cons x)

theorem insertDesc_pairwise (x : CancerType × ℚ) (l : List (CancerType × ℚ))
    (h : l.Pairwise (fun a b => a.2 ≥ b.2)) :
    (insertDesc x l).Pairwise (fun a b => a.2 ≥ b.2) := by
  induction l with
  | nil => simp [insertDesc]
  | cons y ys ih =>
    obtain ⟨hy, hys⟩ := List.pairwise_cons.mp h
    simp only [insertDesc]
    split_ifs with hx
    · refine List.Pairwise.cons ?_ h
      intro z hz
      rcases List.mem_cons.mp hz with rfl | hz2
      · exact hx
      · exact ge_trans hx (hy z hz2)
    · refine List.Pairwise.cons ?_ (ih hys)
      intro z hz
      rcases List.mem_cons.mp ((insertDesc_perm x ys).mem_iff.mp hz) with rfl | hz3
      · exact le_of_not_ge hx
      · exact hy z hz3

theorem sortDescProb_pairwise (l : List (CancerType × ℚ)) :
    (sortDescProb l).Pairwise (fun a b => a.2 ≥ b.2) := by
  induction l with
  | nil => simp [sortDescProb]
  | cons x xs ih => exact insertDesc_pairwise x (sortDescProb xs) ih

theorem foldl_dictSet_find (l : List CancerType) (d : List (CancerType × ℚ)) (ct : CancerType) :
    dictFind (l.foldl (fun acc c => dictSet acc c 0.6) d) ct =
      if ct ∈ l then some 0.6 else dictFind d ct := by
  induction l generalizing d with
  | nil => simp
  | cons c t ih =>
    simp only [List.foldl_cons]
    rw [ih]
    by_cases hmem : ct ∈ t
    · simp [hmem]
    · by_cases hc : ct = c
      · subst hc
        simp [hmem, dictFind_dictSet_self]
      · simp [List.mem_cons, hmem, hc, dictFind_dictSet_ne _ _ _ _ hc]

theorem foldl_dictSet_keys_nodup (l : List CancerType) (d : List (CancerType × ℚ))
    (hnd : (d.map Prod.fst).Nodup) :
    ((l.foldl (fun acc c => dictSet acc c 0.6) d).map Prod.fst).Nodup := by
  induction l generalizing d with
  | nil => exact hnd
  | cons c t ih =>
    simp only [List.foldl_cons]
    exact ih _ (keys_dictSet_nodup d c 0.6 hnd)

theorem applyRiskContributions_find (risks : List (CancerType × CancerRiskEntry))
    (hnd : (risks.map Prod.fst).Nodup) (d : List (CancerType × ℚ)) (ct : CancerType) :
    dictFind (applyRiskContributions d risks) ct =
      match dictFind risks ct with
      | some e => some ((dictFind d ct).getD 0 + e.risk_score * 0.4)
      | none => dictFind d ct := by
  induction risks generalizing d with
  | nil => simp [applyRiskContributions, dictFind]
  | cons hd t ih =>
    obtain ⟨k, e⟩ := hd
    simp only [List.map_cons, List.nodup_cons] at hnd
    simp only [applyRiskContributions]
    rw [ih hnd.2]
    by_cases hk : ct = k
    · subst hk
      have ht : dictFind t ct = none := dictFind_eq_none_of_not_mem_keys hnd.1
      simp [ht, dictFind, dictFind_dictSet_self]
    · have hne : ¬k = ct := fun h => hk h.symm
      cases hft : dictFind t ct with
      | none => simp [hft, dictFind, hne, dictFind_dictSet_ne _ _ _ _ hk]
      | some e2 => simp [hft, dictFind, hne, dictFind_dictSet_ne _ _ _ _ hk]

theorem applyRiskContributions_keys_nodup (risks : List (CancerType × CancerRiskEntry))
    (d : List (CancerType × ℚ)) (hnd : (d.map Prod.fst).Nodup) :
    ((applyRiskContributions d risks).map Prod.fst).Nodup := by
  induction risks generalizing d with
  | nil => exact hnd
  | cons hd t ih =>
    obtain ⟨k, e⟩ := hd
    simp only [applyRiskContributions]
    exact ih _ (keys_dictSet_nodup _ _ _ hnd)

theorem cancerProbabilities_find (sa : SymptomsAnalysis) (ra : RiskAssessment)
    (hnd : (ra.cancer_specific_risks.map Prod.fst).Nodup) (ct : CancerType) :
    dictFind (cancerProbabilities sa ra) ct =
      if ct ∈ sa.possible_cancer_types ∨ ct ∈ ra.cancer_specific_risks.map Prod.fst
      then some (combinedScore sa ra ct) else none := by
  unfold cancerProbabilities symptomProbBase combinedScore
  rw [applyRiskContributions_find _ hnd]
  cases hfind : dictFind ra.cancer_specific_risks ct with
  | some e =>
    have hk : ct ∈ ra.cancer_specific_risks.map Prod.fst :=
      (mem_keys_iff_dictFind_isSome _ _).mpr (by simp [hfind])
    rw [foldl_dictSet_find]
    by_cases hmem : ct ∈ sa.possible_cancer_types
    · simp [hmem, hfind, hk]
    · simp [dictFind, hmem, hfind, hk]
  | none =>
    have hk : ct ∉ ra.cancer_specific_risks.map Prod.fst := by
      rw [mem_keys_iff_dictFind_isSome, hfind]
      simp
    rw [foldl_dictSet_find]
    by_cases hmem : ct ∈ sa.possible_cancer_types
    · simp [hmem, hfind, hk]
    · simp [dictFind, hmem, hfind, hk]

theorem cancerProbabilities_keys_nodup (sa : SymptomsAnalysis) (ra : RiskAssessment) :
    ((cancerProbabilities sa ra).map Prod.fst).Nodup :=
  applyRiskContributions_keys_nodup _ _
    (foldl_dictSet_keys_nodup sa.possible_cancer_types [] (by simp))

theorem mkDiffEntries_map_type (sa : SymptomsAnalysis) (ra : RiskAssessment) (i : Nat)
    (l : List (CancerType × ℚ)) :
    (mkDiffEntries sa ra i l).map (fun e => e.cancer_type) = l.map Prod.fst := by
  induction l generalizing i with
  | nil => simp [mkDiffEntries]
  | cons hd t ih =>
    obtain ⟨ct, p⟩ := hd
    simp [mkDiffEntries, ih]

theorem mkDiffEntries_length (sa : SymptomsAnalysis) (ra : RiskAssessment) (i : Nat)
    (l : List (CancerType × ℚ)) :
    (mkDiffEntries sa ra i l).length = l.length := by
  induction l generalizing i with
  | nil => simp [mkDiffEntries]
  | cons hd t ih =>
    obtain ⟨ct, p⟩ := hd
    simp [mkDiffEntries, ih]

theorem mem_mkDiffEntries (sa : SymptomsAnalysis) (ra : RiskAssessment) (i : Nat)
    (l : List (CancerType × ℚ)) (e : DiffEntry) (he : e ∈ mkDiffEntries sa ra i l) :
    ∃ pr ∈ l, e.cancer_type = pr.1 ∧ e.probability = pr.2 ∧
      e.confidence = confidenceLabel pr.2 := by
  induction l generalizing i with
  | nil => simp [mkDiffEntries] at he
  | cons hd t ih =>
    obtain ⟨ct, p⟩ := hd
    simp only [mkDiffEntries, List.mem_cons] at he
    rcases he with rfl | he2
    · exact ⟨(ct, p), List.mem_cons_self _ _, rfl, rfl, rfl⟩
    · obtain ⟨pr, hpr, h1, h2, h3⟩ := ih _ he2
      exact ⟨pr, List.mem_cons_of_mem _ hpr, h1, h2, h3⟩

theorem mkDiffEntries_exists (sa : SymptomsAnalysis) (ra : RiskAssessment) (i : Nat)
    (l : List (CancerType × ℚ)) (pr : CancerType × ℚ) (hpr : pr ∈ l) :
    ∃ e ∈ mkDiffEntries sa ra i l, e.cancer_type = pr.1 ∧ e.probability = pr.2 := by
  induction l generalizing i with
  | nil => simp at hpr
  | cons hd t ih =>
    obtain ⟨ct, p⟩ := hd
    rcases List.mem_cons.mp hpr with rfl | hpr2
    · exact ⟨_, List.mem_cons_self _ _, rfl, rfl⟩
    · obtain ⟨e, he, h1, h2⟩ := ih _ hpr2
      exact ⟨e, List.mem_cons_of_mem _ he, h1, h2⟩

/-- C6: the differential diagnosis scores each implicated cancer type as 0.6
for symptom implication plus 0.4 times its risk score (no renormalization),
lists the types in descending score order, keeps at most (and, when enough
candidates exist, exactly) the top 5, labels confidence by the fixed
thresholds 0.7 / 0.4, and flags immediate evaluation exactly when some listed
entry's score exceeds 0.8. -/
theorem differential_diagnosis_scoring (sa : SymptomsAnalysis) (ra : RiskAssessment)
    (hnd : (ra.cancer_specific_risks.map Prod.fst).Nodup) :
    (∀ e ∈ (generateDifferentialDiagnosis sa ra).differential_diagnoses,
        e.probability = combinedScore sa ra e.cancer_type ∧
        e.confidence = (if e.probability > 0.7 then "High"
                        else if e.probability > 0.4 then "Moderate" else "Low")) ∧
    ((generateDifferentialDiagnosis sa ra).differential_diagnoses.map
        (fun e => e.probability)).Pairwise (fun a b => a ≥ b) ∧
    (generateDifferentialDiagnosis sa ra).differential_diagnoses.length ≤ 5 ∧
    (∀ ct, (ct ∈ sa.possible_cancer_types ∨ ct ∈ ra.cancer_specific_risks.map Prod.fst) →
        ct ∈ (generateDifferentialDiagnosis sa ra).differential_diagnoses.map
            (fun e => e.cancer_type) ∨
        (generateDifferentialDiagnosis sa ra).differential_diagnoses.length = 5) ∧
    (∀ e ∈ (generateDifferentialDiagnosis sa ra).differential_diagnoses, ∀ ct,
        (ct ∈ sa.possible_cancer_types ∨ ct ∈ ra.cancer_specific_risks.map Prod.fst) →
        ct ∉ (generateDifferentialDiagnosis sa ra).differential_diagnoses.map
            (fun e => e.cancer_type) →
        combinedScore sa ra ct ≤ e.probability) ∧
    ((generateDifferentialDiagnosis sa ra).requires_immediate_evaluation = true ↔
      ∃ e ∈ (generateDifferentialDiagnosis sa ra).differential_diagnoses,
        e.probability > 0.8) := by
  have hentries : (generateDifferentialDiagnosis sa ra).differential_diagnoses =
      mkDiffEntries sa ra 0 ((sortDescProb (cancerProbabilities sa ra)).take 5) := rfl
  have hreq : (generateDifferentialDiagnosis sa ra).requires_immediate_evaluation =
      (sortDescProb (cancerProbabilities sa ra)).any (fun e => decide (e.2 > 0.8)) := rfl
  have hperm : List.Perm (sortDescProb (cancerProbabilities sa ra)) (cancerProbabilities sa ra) :=
    sortDescProb_perm _
  have hsorted := sortDescProb_pairwise (cancerProbabilities sa ra)
  have hCPnodup := cancerProbabilities_keys_nodup sa ra
  have hpairScore : ∀ pr : CancerType × ℚ, pr ∈ sortDescProb (cancerProbabilities sa ra) →
      pr.2 = combinedScore sa ra pr.1 ∧
      (pr.1 ∈ sa.possible_cancer_types ∨ pr.1 ∈ ra.cancer_specific_risks.map Prod.fst) := by
    rintro ⟨c, q⟩ hpr
    have hmem : (c, q) ∈ cancerProbabilities sa ra := hperm.mem_iff.mp hpr
    have hfind := dictFind_eq_some_of_mem hCPnodup hmem
    rw [cancerProbabilities_find sa ra hnd c] at hfind
    by_cases hc : c ∈ sa.possible_cancer_types ∨ c ∈ ra.cancer_specific_risks.map Prod.fst
    · rw [if_pos hc] at hfind
      injection hfind with hq
      exact ⟨hq.symm, hc⟩
    · rw [if_neg hc] at hfind
      cases hfind
  have hcandPair : ∀ ct,
      (ct ∈ sa.possible_cancer_types ∨ ct ∈ ra.cancer_specific_risks.map Prod.fst) →
      (ct, combinedScore sa ra ct) ∈ sortDescProb (cancerProbabilities sa ra) := by
    intro ct hc
    apply hperm.mem_iff.mpr
    apply mem_of_dictFind_eq_some
    rw [cancerProbabilities_find sa ra hnd ct, if_pos hc]
  have hsplit := List.take_append_drop 5 (sortDescProb (cancerProbabilities sa ra))
  have hsorted2 := hsorted
  rw [← hsplit] at hsorted2
  obtain ⟨-, -, hcross⟩ := List.pairwise_append.mp hsorted2
  refine ⟨?_, ?_, ?_, ?_, ?_, ?_⟩
  · intro e he
    rw [hentries] at he
    obtain ⟨pr, hpr, h1, h2, h3⟩ := mem_mkDiffEntries sa ra 0 _ e he
    have hprS := List.take_subset 5 _ hpr
    obtain ⟨hscore, _⟩ := hpairScore pr hprS
    refine ⟨by rw [h2, h1, hscore], ?_⟩
    rw [h3, h2, confidenceLabel]
  · rw [hentries]
    have hmp : (mkDiffEntries sa ra 0 ((sortDescProb (cancerProbabilities sa ra)).take 5)).map
        (fun e => e.probability) =
        ((sortDescProb (cancerProbabilities sa ra)).take 5).map Prod.snd := by
      generalize 0 = i
      generalize (sortDescProb (cancerProbabilities sa ra)).take 5 = l
      induction l generalizing i with
      | nil => simp [mkDiffEntries]
      | cons hd t ih =>
        obtain ⟨ct, p⟩ := hd
        simp [mkDiffEntries, ih]
    rw [hmp]
    rw [List.pairwise_map]
    exact hsorted.sublist (List.take_sublist 5 _)
  · rw [hentries, mkDiffEntries_length, List.length_take]
    exact min_le_left 5 _
  · intro ct hc
    have hpairmem := hcandPair ct hc
    rw [← hsplit] at hpairmem
    rcases List.mem_append.mp hpairmem with hin | hin
    · left
      rw [hentries, mkDiffEntries_map_type]
      exact List.mem_map.mpr ⟨_, hin, rfl⟩
    · right
      have hdropne : (sortDescProb (cancerProbabilities sa ra)).drop 5 ≠ [] :=
        List.ne_nil_of_mem hin
      have hlen : 5 < (sortDescProb (cancerProbabilities sa ra)).length := by
        by_contra hlt
        push_neg at hlt
        exact hdropne (List.drop_eq_nil_of_le hlt)
      rw [hentries, mkDiffEntries_length, List.length_take]
      omega
  · intro e he ct hc hnotin
    rw [hentries] at he
    obtain ⟨pe, hpe, h1, h2, _⟩ := mem_mkDiffEntries sa ra 0 _ e he
    have hpairmem := hcandPair ct hc
    rw [← hsplit] at hpairmem
    rcases List.mem_append.mp hpairmem with hin | hin
    · exfalso
      apply hnotin
      rw [hentries, mkDiffEntries_map_type]
      exact List.mem_map.mpr ⟨_, hin, rfl⟩
    · have := hcross pe hpe _ hin
      rw [h2]
      exact this
  · rw [hreq]
    constructor
    · intro hany
      obtain ⟨x, hx, hgt⟩ := List.any_eq_true.mp hany
      have hxgt : x.2 > 0.8 := of_decide_eq_true hgt
      rw [← hsplit] at hx
      rcases List.mem_append.mp hx with hin | hin
      · obtain ⟨e, he, h1, h2⟩ := mkDiffEntries_exists sa ra 0 _ x hin
        exact ⟨e, hentries ▸ he, h2 ▸ hxgt⟩
      · have hdropne : (sortDescProb (cancerProbabilities sa ra)).drop 5 ≠ [] :=
          List.ne_nil_of_mem hin
        have hlen : 5 < (sortDescProb (cancerProbabilities sa ra)).length := by
          by_contra hlt
          push_neg at hlt
          exact hdropne (List.drop_eq_nil_of_le hlt)
        have htakelen : ((sortDescProb (cancerProbabilities sa ra)).take 5).length = 5 := by
          rw [List.length_take]
          omega
        have htakene : ((sortDescProb (cancerProbabilities sa ra)).take 5) ≠ [] := by
          intro hcontra
          rw [hcontra] at htakelen
          simp at htakelen
        obtain ⟨y, hy⟩ := List.exists_mem_of_ne_nil _ htakene
        have hyx := hcross y hy _ hin
        obtain ⟨e, he, h1, h2⟩ := mkDiffEntries_exists sa ra 0 _ y hy
        refine ⟨e, hentries ▸ he, ?_⟩
        rw [h2]
        exact lt_of_lt_of_le hxgt hyx
    · rintro ⟨e, he, hgt⟩
      rw [hentries] at he
      obtain ⟨pr, hpr, h1, h2, _⟩ := mem_mkDiffEntries sa ra 0 _ e he
      apply List.any_eq_true.mpr
      refine ⟨pr, List.take_subset 5 _ hpr, decide_eq_true ?_⟩
      rw [← h2]
      exact hgt

/-- Witness for C6: with lung cancer implicated by symptoms and at critical
risk, the differential diagnosis lists at most five entries. -/
theorem differential_diagnosis_scoring_witness :
    (generateDifferentialDiagnosis lungSymptomsAnalysis lungRiskAssessment).differential_diagnoses.length
      ≤ 5 :=
  (differential_diagnosis_scoring lungSymptomsAnalysis lungRiskAssessment (by decide)).2.2.1

end LabAid
